import Mathlib

/-!
Verification of the layout-analysis and content-matching core.

Shallow embedding of `src/slidedeckai/layout_analyzer.py` and
`src/slidedeckai/content_matcher.py`.  Python floats are modelled as exact
rationals (`Rat`); Python lists as `List`; insertion-ordered dicts as
association lists; a raised exception as `Option.none`.

Arithmetic on `Rat` is expressed through small wrappers (`qAdd`, `qMul`, …)
built on the reducible smart constructor `mkRat`, so that every embedded
function evaluates by `decide`/`rfl`; the wrappers are proved equal to the
ordinary field operations below and those equations are used by the general
theorems.
-/

namespace SlideDeck

/-! ## Reducible rational arithmetic -/

/-- Addition `a + b` on `Rat`, via `mkRat` (kernel-reducible). -/
def qAdd (a b : Rat) : Rat := mkRat (a.num * b.den + b.num * a.den) (a.den * b.den)

/-- Negation `-a` on `Rat`, via `mkRat` (kernel-reducible). -/
def qNeg (a : Rat) : Rat := mkRat (- a.num) a.den

/-- Subtraction `a - b` on `Rat` (kernel-reducible). -/
def qSub (a b : Rat) : Rat := qAdd a (qNeg b)

/-- Multiplication `a * b` on `Rat`, via `mkRat` (kernel-reducible). -/
def qMul (a b : Rat) : Rat := mkRat (a.num * b.num) (a.den * b.den)

/-- Division `a / b` on `Rat`, via `Rat.divInt` (kernel-reducible; `qDiv a 0 = 0`,
though the embedded code only divides by positive quantities). -/
def qDiv (a b : Rat) : Rat := Rat.divInt (a.num * b.den) (a.den * b.num)

/-- Python `min(a, b)` (returns the first argument on ties). -/
def qMin (a b : Rat) : Rat := if b < a then b else a

/-- Python `max(a, b)` (returns the first argument on ties). -/
def qMax (a b : Rat) : Rat := if a < b then b else a

/-- Python `abs` on a rational. -/
def qAbs (a : Rat) : Rat := if a < 0 then qNeg a else a

/-- Floor `⌊a⌋` as an `Int`, via `Int.fdiv` (kernel-reducible). -/
def qFloor (a : Rat) : Int := Int.fdiv a.num a.den

/-- Python `sum(...)` over rationals: a left fold of `+` starting at `0`. -/
def qSum (l : List Rat) : Rat := l.foldl qAdd 0

/-! ## Placeholder geometry and classification (`layout_analyzer.py`) -/

/-- Mirrors `layout_analyzer.PlaceholderInfo` (a dataclass): geometric data
plus the derived spatial characteristics computed in `__post_init__`. -/
structure PlaceholderInfo where
  idx : Nat
  type : String
  type_id : Nat
  left : Rat
  top : Rat
  width : Rat
  height : Rat
  area : Rat
  role : String
  position_group : String
  aspect_ratio : Rat
  is_small_box : Bool
  is_medium_box : Bool
  is_large_box : Bool
  is_wide : Bool
  is_tall : Bool
deriving DecidableEq, Repr, Inhabited

/-- The guarded aspect ratio `width / height if height > 0 else 1.0` used by
`PlaceholderInfo.__post_init__` and `_classify_placeholder_role`. -/
def aspectOf (width height : Rat) : Rat :=
  if 0 < height then qDiv width height else 1

/-- Constructing a `PlaceholderInfo`: the dataclass constructor followed by
`__post_init__`, which fills `aspect_ratio` and the size/shape flags. -/
def mkPlaceholderInfo (idx : Nat) (type : String) (type_id : Nat)
    (left top width height area : Rat) (role : String) : PlaceholderInfo :=
  { idx := idx, type := type, type_id := type_id,
    left := left, top := top, width := width, height := height, area := area,
    role := role, position_group := "",
    aspect_ratio := aspectOf width height,
    is_small_box := decide (area < 3),
    is_medium_box := decide (3 ≤ area ∧ area < 15),
    is_large_box := decide (15 ≤ area),
    is_wide := decide (2 < aspectOf width height),
    is_tall := decide (aspectOf width height < mkRat 1 2) }

/-- Mirrors `TemplateAnalyzer._classify_placeholder_role`: a pure function of
`(type_id, width, height, area)` (the `type_name` argument is unused by the
source logic and omitted here). -/
def classifyPlaceholderRole (type_id : Nat) (width height area : Rat) : String :=
  if type_id = 4 then "subtitle"
  else if type_id = 1 then "title"
  else if [5, 6, 7, 8].contains type_id then "footer"
  else if [10, 11, 15].contains type_id then "content"
  else if [2, 9, 16, 17].contains type_id then
    if height < mkRat 1 2 then "subtitle"
    else if area < 1 then "subtitle"
    else
      if 3 < aspectOf width height ∧ height < mkRat 4 5 then "subtitle"
      else "content"
  else "content"

/-- The Python built-in `round` to an integer on an exact value: round half to
even. -/
def pythonRound (q : Rat) : Int :=
  let f := qFloor q
  let r := qSub q (f : Rat)
  if r < mkRat 1 2 then f
  else if mkRat 1 2 < r then f + 1
  else if f % 2 = 0 then f else f + 1

/-- The row key `round(box.top * 3) / 3` used by `_detect_kpi_grid`. -/
def rowKey (b : PlaceholderInfo) : Rat :=
  qDiv ((pythonRound (qMul b.top 3) : Int) : Rat) 3

/-- One step of building the insertion-ordered `rows` dict of
`_detect_kpi_grid`: append `b` to the bucket of key `k`, or add a new
`(k, [b])` entry at the end. -/
def insertRow (acc : List (Rat × List PlaceholderInfo)) (k : Rat)
    (b : PlaceholderInfo) : List (Rat × List PlaceholderInfo) :=
  match acc with
  | [] => [(k, [b])]
  | (k', l) :: rest =>
      if k' = k then (k', l ++ [b]) :: rest else (k', l) :: insertRow rest k b

/-- The `rows` dict of `_detect_kpi_grid`, as an insertion-ordered
association list. -/
def groupByRow (boxes : List PlaceholderInfo) : List (Rat × List PlaceholderInfo) :=
  boxes.foldl (fun acc b => insertRow acc (rowKey b) b) []

/-- Maximum of a Python generator of floats: the first element seeds the
fold and is replaced only by strictly larger values (the callers guarantee
non-emptiness; `0` is a dead default). -/
def listMax (l : List Rat) : Rat :=
  match l with
  | [] => 0
  | x :: xs => xs.foldl qMax x

/-- Mirrors the dict returned by `_detect_kpi_grid` on success. -/
structure KpiGrid where
  boxes : List PlaceholderInfo
  rows : Nat
  cols : Nat
  total_area : Rat
  avg_box_size : Rat
deriving DecidableEq, Repr

/-- Mirrors `TemplateAnalyzer._detect_kpi_grid`; `none` is the Python `None`
result. -/
def detectKpiGrid (placeholders : List PlaceholderInfo) : Option KpiGrid :=
  let small_boxes := placeholders.filter (fun ph => ph.is_small_box)
  if small_boxes.length < 4 then none
  else
    let rows := groupByRow small_boxes
    if rows.length < 2 ∨ rows.any (fun kv => kv.2.length < 2) then none
    else
      let areas := small_boxes.map (fun b => b.area)
      let avg_area := qDiv (qSum areas) ((areas.length : Nat) : Rat)
      let max_deviation := listMax (areas.map (fun a => qAbs (qSub a avg_area)))
      if qMul avg_area (mkRat 3 10) < max_deviation then none
      else
        some { boxes := small_boxes,
               rows := rows.length,
               cols := ((rows.head?).map (fun kv => kv.2.length)).getD 0,
               total_area := qSum areas,
               avg_box_size := avg_area }

/-- Stable ascending insertion of `x` by the `left` coordinate (a new element
goes after existing equal keys), used to model the stable Python
`sorted(..., key=lambda x: x.left)`. -/
def insertByLeft (x : PlaceholderInfo) : List PlaceholderInfo → List PlaceholderInfo
  | [] => [x]
  | y :: ys => if x.left < y.left then x :: y :: ys else y :: insertByLeft x ys

/-- Stable sort by `left`, modelling `sorted(content_phs, key=lambda x: x.left)`. -/
def sortByLeft (l : List PlaceholderInfo) : List PlaceholderInfo :=
  l.foldr insertByLeft []

/-- Mirrors `_detect_section_pattern`. -/
def detectSectionPattern (content_areas : List PlaceholderInfo) : String :=
  if content_areas.length = 1 then "single"
  else
    let small_count := (content_areas.filter (fun c => c.is_small_box)).length
    if 3 ≤ small_count then "grid"
    else if 2 ≤ content_areas.length then
      match sortByLeft content_areas with
      | c0 :: c1 :: _ =>
          if qAbs (qSub c0.top c1.top) < mkRat 1 2 then "columns" else "mixed"
      | _ => "mixed"
    else "mixed"

/-- Mirrors `_infer_section_best_for`. -/
def inferSectionBestFor (content_areas : List PlaceholderInfo) (pattern : String) :
    List String :=
  if pattern = "single" then
    match content_areas with
    | c :: _ =>
        if c.is_large_box then ["chart", "table", "bullets"]
        else if c.is_medium_box then ["bullets", "pictogram"]
        else []
    | [] => []
  else if pattern = "grid" then ["kpi_dashboard", "icon_grid"]
  else if pattern = "columns" then ["comparison", "bullets"]
  else []

/-- Mirrors the section dicts built by `_group_placeholders_semantically`. -/
structure Section where
  subtitle : PlaceholderInfo
  content_areas : List PlaceholderInfo
  total_capacity : Rat
  section_id : String
  layout_pattern : String
  best_for : List String
deriving DecidableEq, Repr

/-- Mirrors `TemplateAnalyzer._group_placeholders_semantically`: pair each
subtitle with the not-yet-used content areas strictly 0–1.0 units below it and
within 1.5 units horizontally; earlier subtitles win a content area. -/
def groupPlaceholdersSemantically (subtitles content_areas : List PlaceholderInfo) :
    List Section :=
  (subtitles.foldl
    (fun (acc : List Section × List Nat) subtitle =>
      let used := acc.2
      let related := content_areas.filter (fun content =>
        (!(used.contains content.idx)) &&
        decide (0 < qSub content.top subtitle.top) &&
        decide (qSub content.top subtitle.top < 1) &&
        decide (qAbs (qSub content.left subtitle.left) ≤ mkRat 3 2))
      if related.isEmpty then acc
      else
        let pattern := detectSectionPattern related
        ( acc.1 ++ [{ subtitle := subtitle,
                      content_areas := related,
                      total_capacity := qSum (related.map (fun c => c.area)),
                      section_id := "section_" ++ toString subtitle.idx,
                      layout_pattern := pattern,
                      best_for := inferSectionBestFor related pattern }],
          used ++ related.map (fun c => c.idx)))
    ([], [])).1

/-- Python `max(l, key=lambda x: x.area)`: the first element of maximal area
(`none` models the `ValueError` raised on an empty sequence). -/
def maxByArea (l : List PlaceholderInfo) : Option PlaceholderInfo :=
  match l with
  | [] => none
  | x :: xs => some (xs.foldl (fun acc c => if acc.area < c.area then c else acc) x)

/-- Mirrors `TemplateAnalyzer._infer_semantic_story_type`; `none` models the
`ValueError` from `max` of an empty placeholder list (reachable only with
exactly one section and no content placeholders). -/
def inferSemanticStoryType (semantic_sections : List Section)
    (content_placeholders : List PlaceholderInfo) (kpi_grid : Option KpiGrid) :
    Option String :=
  if kpi_grid.isSome then some "metrics_dashboard"
  else
    let section_count := semantic_sections.length
    if section_count = 1 then
      match maxByArea content_placeholders with
      | none => none
      | some largest =>
          if 40 < largest.area then
            if mkRat 3 2 < PlaceholderInfo.aspect_ratio largest then some "data_visualization"
            else some "detailed_analysis"
          else some "focused_message"
    else if section_count = 2 then
      match semantic_sections with
      | s0 :: s1 :: _ =>
          let a0 := qSum (s0.content_areas.map (fun ph => ph.area))
          let a1 := qSum (s1.content_areas.map (fun ph => ph.area))
          if qAbs (qSub a0 a1) < 5 then some "balanced_comparison"
          else some "main_supporting"
      | _ => some "general_content"
    else if section_count = 3 then some "three_stage_narrative"
    else if 6 ≤ content_placeholders.length ∧
        content_placeholders.all (fun ph => ph.is_small_box) then
      some "feature_grid"
    else
      let large_count := (content_placeholders.filter (fun ph => ph.is_large_box)).length
      let small_count := (content_placeholders.filter (fun ph => ph.is_small_box)).length
      if 1 ≤ large_count ∧ 2 ≤ small_count then some "hierarchical_story"
      else some "general_content"

/-- Mirrors `TemplateAnalyzer._calculate_complexity`. -/
def calculateComplexity (semantic_sections : List Section)
    (content_placeholders : List PlaceholderInfo) : Rat :=
  let score : Rat := 0
  let score := qAdd score (qMin (qMul ((semantic_sections.length : Nat) : Rat) 15) 40)
  let score := qAdd score (qMin (qMul ((content_placeholders.length : Nat) : Rat) 8) 40)
  let small_count := (content_placeholders.filter (fun ph => ph.is_small_box)).length
  let score := qAdd score (qMin (qMul ((small_count : Nat) : Rat) 5) 20)
  qMin score 100

/-! ## Content payloads (`slide_json`)

Strings inside payloads are abstracted to the two attributes the source
reads: their length (`len(item)`) and whether they contain the icon marker
`"[["`.  Nested bullet lists carry one level of string entries, which covers
every payload shape the generator produces (`{heading, bullet_points}`
sections with string bullets). -/

/-- A plain string entry of a nested bullet list, abstracted to its length
and whether it contains `"[["`. -/
structure BulletLeaf where
  length : Nat
  hasIconMarker : Bool
deriving DecidableEq, Repr

/-- One entry of a top-level `bullet_points` list: a plain string, a nested
list of strings, or a dict with an optional `heading` (abstracted to its
length) and an optional nested `bullet_points` list. -/
inductive BulletItem where
  | str (length : Nat) (hasIconMarker : Bool)
  | list (items : List BulletLeaf)
  | dict (heading : Option Nat) (bullet_points : Option (List BulletLeaf))
deriving DecidableEq, Repr

/-- Reading a leaf string back as a top-level bullet entry. -/
def BulletLeaf.toItem (l : BulletLeaf) : BulletItem :=
  BulletItem.str l.length l.hasIconMarker

/-- A truthy `table` payload: header and row counts (the cell contents are
irrelevant to the embedded code paths). -/
structure TableData where
  headers : Nat
  rows : Nat
deriving DecidableEq, Repr

/-- The content JSON of a slide, restricted to the keys the matcher reads.
`none` models an absent (or falsy) key; `bullet_points`, when present, is a
list (the non-list branches of the matcher are never exercised by the claims). -/
structure SlideJson where
  chart : Option Nat
  table : Option TableData
  bullet_points : Option (List BulletItem)
deriving DecidableEq, Repr

/-- The `content_capacity` dict of a layout (built by
`_calculate_content_capacity`); fields are the entries the matcher reads. -/
structure ContentCapacity where
  bullets_max_lines : Int
  bullets_chars_per_line : Int
  bullets_estimated_words : Int
  table_max_cols : Int
  table_max_rows : Int
  chart_suitable : Bool
  chart_available_area : Rat
  kpis_count : Nat
  pictograms_suitable : Bool
  pictograms_estimated_count : Int
  sections : Nat
deriving DecidableEq, Repr

/-- The `content_density_recommendation` dict; only `bullets_recommended` is read
by the matcher (`none` models an empty, falsy dict). -/
structure DensityRec where
  bullets_recommended : Int
deriving DecidableEq, Repr

/-- The slice of `layout_analyzer.LayoutCapability` read by
`ContentLayoutMatcher`; `spatial_group_names` is the key list of the
`spatial_groups` dict. -/
structure LayoutCapability where
  name : String
  semantic_story_type : String
  executive_suitability : Rat
  best_for : List String
  visual_balance : Rat
  fill_difficulty : String
  content_density_recommendation : Option DensityRec
  content_capacity : ContentCapacity
  semantic_sections : List Section
  content_placeholders : List PlaceholderInfo
  subtitle_placeholders : List PlaceholderInfo
  kpi_grid : Option KpiGrid
  spatial_group_names : List String
deriving DecidableEq, Repr

/-- Mirrors `ContentLayoutMatcher._infer_content_type_from_json`. -/
def inferContentTypeFromJson (slide_json : SlideJson) : String :=
  if slide_json.chart.isSome then "chart"
  else if slide_json.table.isSome then "table"
  else
    match slide_json.bullet_points with
    | none => "bullets"
    | some bullets =>
        if bullets.isEmpty then "bullets"
        else if bullets.all (fun item =>
            match item with
            | .str _ hasIcon => hasIcon
            | _ => false) then "pictogram"
        else if bullets.all (fun item =>
            match item with
            | .dict heading _ => heading.isSome
            | _ => false) then
          if 4 ≤ bullets.length ∧ bullets.all (fun item =>
              match item with
              | .dict heading _ => (heading.getD 0) < 20
              | _ => true) then "kpi_dashboard"
          else "comparison"
        else "bullets"

/-- The function `_estimate_bullet_lines` on a nested (one-level) list of strings. -/
def estimateLeafLines (items : List BulletLeaf) : Nat :=
  items.foldl (fun lines item => lines + max 1 (item.length / 50)) 0

/-- Mirrors `ContentLayoutMatcher._estimate_bullet_lines` on a list value:
strings cost `max 1 (len // 50)` lines, nested lists recurse, dicts cost `2`
plus their nested `bullet_points`. -/
def estimateBulletLines (items : List BulletItem) : Nat :=
  items.foldl (fun lines item =>
    lines + (match item with
      | .str length _ => max 1 (length / 50)
      | .list sub => estimateLeafLines sub
      | .dict _ (some bps) => 2 + estimateLeafLines bps
      | .dict _ none => 2)) 0

/-- The function `_estimate_bullet_lines` applied to the `bullet_points` list,
defaulted to the empty list when the key is absent (hence 0 lines). -/
def estimateBulletLinesOf (bullets : Option (List BulletItem)) : Nat :=
  estimateBulletLines (bullets.getD [])

/-- Mirrors `ContentLayoutMatcher._score_for_chart`. -/
def scoreForChart (layout : LayoutCapability) : Rat :=
  let score : Rat :=
    if layout.content_capacity.chart_suitable then
      qAdd 30 (if 50 < layout.content_capacity.chart_available_area then 10 else 0)
    else 0
  qAdd score
    (if layout.semantic_sections.length = 1 then
       match layout.semantic_sections with
       | sec :: _ =>
           if sec.content_areas.length = 1 then
             match sec.content_areas with
             | c :: _ => if c.is_large_box then 20 else 0
             | [] => 0
           else 0
       | [] => 0
     else 0)

/-- Mirrors `ContentLayoutMatcher._score_for_table`. -/
def scoreForTable (layout : LayoutCapability) (slide_json : SlideJson) : Rat :=
  let needed_cols : Int := ((slide_json.table.map (fun t => t.headers)).getD 0 : Nat)
  let needed_rows : Int := ((slide_json.table.map (fun t => t.rows)).getD 0 : Nat)
  let capacity := layout.content_capacity
  let score : Rat :=
    if needed_cols ≤ capacity.table_max_cols ∧ needed_rows ≤ capacity.table_max_rows then
      qAdd 40 (if capacity.table_max_cols ≤ needed_cols + 2 then 10 else 0)
    else 10
  qAdd score (if layout.semantic_sections.length = 1 then 10 else 0)

/-- Mirrors `ContentLayoutMatcher._score_for_kpi`. -/
def scoreForKpi (layout : LayoutCapability) (slide_json : SlideJson) : Rat :=
  let needed_kpis := (slide_json.bullet_points.map (fun l => l.length)).getD 0
  if layout.kpi_grid.isSome then
    let available := layout.content_capacity.kpis_count
    if needed_kpis ≤ available then
      qAdd 50 (if available = needed_kpis then 10 else 0)
    else 0
  else
    let small_boxes := layout.content_placeholders.filter (fun ph => ph.is_small_box)
    if needed_kpis ≤ small_boxes.length then 30 else 0

/-- Mirrors `ContentLayoutMatcher._score_for_pictogram`. -/
def scoreForPictogram (layout : LayoutCapability) (slide_json : SlideJson) : Rat :=
  let needed_icons : Int := ((slide_json.bullet_points.map (fun l => l.length)).getD 0 : Nat)
  let score : Rat :=
    if layout.content_capacity.pictograms_suitable then
      let estimated := layout.content_capacity.pictograms_estimated_count
      if needed_icons ≤ estimated then
        qAdd 40 (if (estimated - needed_icons).natAbs ≤ 1 then 10 else 0)
      else 0
    else 0
  let medium_wide := layout.content_placeholders.filter
    (fun ph => ph.is_medium_box && ph.is_wide)
  qAdd score (if medium_wide.isEmpty then 0 else 10)

/-- Mirrors `ContentLayoutMatcher._score_for_comparison`. -/
def scoreForComparison (layout : LayoutCapability) (slide_json : SlideJson) : Rat :=
  let needed_cols :=
    match slide_json.bullet_points with
    | some (BulletItem.dict h bps :: rest) => (BulletItem.dict h bps :: rest).length
    | _ => 2
  let sections := layout.semantic_sections.length
  let score : Rat :=
    if sections = needed_cols then 50
    else if ((sections : Int) - (needed_cols : Int)).natAbs = 1 then 30
    else 0
  qAdd score
    (if needed_cols = 2 ∧ layout.spatial_group_names.contains "left_column" then 10
     else 0)

/-- Mirrors `ContentLayoutMatcher._score_for_bullets`. -/
def scoreForBullets (layout : LayoutCapability) (slide_json : SlideJson) : Rat :=
  let estimated_lines : Int := (estimateBulletLinesOf slide_json.bullet_points : Nat)
  let target_bullets : Int :=
    match layout.content_density_recommendation with
    | some r => r.bullets_recommended
    | none => 10
  let capacity_lines := layout.content_capacity.bullets_max_lines
  let score : Rat :=
    if (estimated_lines - target_bullets).natAbs ≤ 2 then 50
    else if estimated_lines ≤ capacity_lines then
      qAdd 40 (if capacity_lines ≤ estimated_lines + 5 then 10 else 0)
    else 20
  qAdd score (if 70 ≤ layout.executive_suitability then 10 else 0)

/-- Mirrors `ContentLayoutMatcher._score_layout_for_content`. -/
def scoreLayoutForContent (layout : LayoutCapability) (content_type : String)
    (slide_json : SlideJson) : Rat :=
  let score : Rat := if layout.best_for.contains content_type then 40 else 0
  let score := qAdd score
    (if content_type = "chart" then scoreForChart layout
     else if content_type = "table" then scoreForTable layout slide_json
     else if content_type = "kpi_dashboard" then scoreForKpi layout slide_json
     else if content_type = "pictogram" then scoreForPictogram layout slide_json
     else if content_type = "comparison" then scoreForComparison layout slide_json
     else if content_type = "bullets" then scoreForBullets layout slide_json
     else 0)
  let score := qAdd score (if 70 < layout.visual_balance then 5 else 0)
  let score := qAdd score (if layout.fill_difficulty = "easy" then 3 else 0)
  qMin 100 score

/-- Mirrors `ContentLayoutMatcher._is_compatible_story_type`. -/
def isCompatibleStoryType (layout_story preferred_story : String) : Bool :=
  let compatible_groups : List (List String) :=
    [["data_visualization", "metrics_dashboard"],
     ["balanced_comparison", "hierarchical_story"],
     ["three_stage_narrative", "feature_grid"],
     ["focused_message", "main_supporting"]]
  compatible_groups.any (fun group =>
    group.contains layout_story && group.contains preferred_story)

/-- The fixed 7-entry `body_types` list of `_build_section_sequence`. -/
def bodyTypes : List String :=
  ["data_visualization", "balanced_comparison", "three_stage_narrative",
   "metrics_dashboard", "detailed_analysis", "hierarchical_story", "feature_grid"]

/-- Mirrors `ContentLayoutMatcher._build_section_sequence`.  The source
computes the body count as `int(total_sections * 0.7)` in IEEE binary
floating point, which coincides with `7 * n / 10` for every `n ≤ 89` and
first deviates at `n = 90` (where the float product is just below `63`);
theorems about the arc are therefore restricted to `n ≤ 89`. -/
def buildSectionSequence (total_sections : Nat) : List String :=
  let opening_count := max 1 (total_sections / 10)
  let body_count := 7 * total_sections / 10
  let closing_count := total_sections - opening_count - body_count
  List.replicate opening_count "focused_message"
    ++ (List.range body_count).map (fun i => bodyTypes.getD (i % 7) "")
    ++ (List.range closing_count).map (fun i =>
          if i = closing_count - 1 then "focused_message" else "metrics_dashboard")

/-! ## Stateful layout selection (`ContentLayoutMatcher`) -/

/-- The Python slice `l[-n:]`: the last `n` elements (the whole list when it is
shorter). -/
def takeLast (n : Nat) (l : List α) : List α := l.drop (l.length - n)

/-- The mutable instance state of `ContentLayoutMatcher`:
`used_layouts`, `used_story_types` (entries may be `None`), and
`section_sequence`. -/
structure MatcherState where
  used_layouts : List Nat
  used_story_types : List (Option String)
  section_sequence : List String
deriving DecidableEq, Repr

/-- The fresh state built by `ContentLayoutMatcher.__init__`. -/
def initialMatcherState : MatcherState :=
  { used_layouts := [], used_story_types := [], section_sequence := [] }

/-- The dict `self.analyzer.layouts`: an insertion-ordered dict from layout index to
capability, modelled as an association list. -/
def lookupLayout (layouts : List (Nat × LayoutCapability)) (i : Nat) :
    Option LayoutCapability :=
  (layouts.find? (fun p => p.1 = i)).map (fun p => p.2)

/-- The sort `scored_layouts.sort(reverse=True, key=lambda x: x[0])` followed by taking
the head: the stable descending Python sort puts the earliest maximal-score
entry first, i.e. a fold that replaces the current best only on a strictly
greater score. -/
def pickBest (scored : List (Rat × Nat × LayoutCapability)) :
    Option (Rat × Nat × LayoutCapability) :=
  match scored with
  | [] => none
  | x :: xs => some (xs.foldl (fun best cand => if best.1 < cand.1 then cand else best) x)

/-- The tail of `select_layout_with_story_awareness`: record and return the
winner, or fall back to layout 1 when nothing was scored. -/
def storyAwareFinish (st : MatcherState) (seq : List String)
    (pick : Option (Rat × Nat × LayoutCapability)) : Nat × MatcherState :=
  match pick with
  | some (_, best_idx, best_layout) =>
      (best_idx,
       { st with section_sequence := seq,
                 used_layouts := st.used_layouts ++ [best_idx],
                 used_story_types :=
                   st.used_story_types ++ [some best_layout.semantic_story_type] })
  | none => (1, { st with section_sequence := seq })

/-- Mirrors `ContentLayoutMatcher.select_layout_with_story_awareness`,
returning the chosen index and the updated instance state.  Note that the
source appends the pick to `used_layouts`/`used_story_types` before
returning. -/
def selectLayoutWithStoryAwareness (layouts : List (Nat × LayoutCapability))
    (slide_json : SlideJson) (slide_index total_slides : Nat)
    (st : MatcherState) : Nat × MatcherState :=
  let seq := if st.section_sequence.isEmpty then buildSectionSequence total_slides
             else st.section_sequence
  let preferred_story := seq.getD (min slide_index (seq.length - 1)) ""
  let content_type := inferContentTypeFromJson slide_json
  let scored_layouts := layouts.map (fun p =>
    let idx := p.1
    let layout := p.2
    let score := scoreLayoutForContent layout content_type slide_json
    let score := qAdd score
      (if layout.semantic_story_type = preferred_story then 30
       else if isCompatibleStoryType layout.semantic_story_type preferred_story then 15
       else 0)
    let score := qAdd score (qMul (qDiv layout.executive_suitability 100) 20)
    let score := qAdd score
      (if 2 ≤ st.used_layouts.length ∧
          st.used_layouts.getLast? ≠ some idx ∧
          st.used_layouts.dropLast.getLast? ≠ some idx then 10 else 0)
    let recent_uses := takeLast 5 st.used_layouts
    let score := qSub score (if 2 ≤ recent_uses.count idx then 20 else 0)
    (score, idx, layout))
  storyAwareFinish st seq (pickBest scored_layouts)

/-- The final bookkeeping of `select_layout_for_slide`: append the choice and
its story type (`None` when the index is unknown to the analyzer) and bound
both histories to the last 50 entries. -/
def appendAndTruncate (layouts : List (Nat × LayoutCapability))
    (st : MatcherState) (idx : Nat) : MatcherState :=
  let ul := st.used_layouts ++ [idx]
  let ul := if 50 < ul.length then takeLast 50 ul else ul
  let us := st.used_story_types ++
    [(lookupLayout layouts idx).map (fun l => l.semantic_story_type)]
  let us := if 50 < us.length then takeLast 50 us else us
  { st with used_layouts := ul, used_story_types := us }

/-- The alternative-layout search inside `select_layout_for_slide`: the best
`(idx, adjusted score)` among layouts with a different story type whose
content score is within 12 points of the baseline, preferring story types not
used in the last 3 history entries; starts from `(None, -999.0)`. -/
def searchAlternative (layouts : List (Nat × LayoutCapability))
    (layout_idx : Nat) (candidate_story : Option String)
    (content_type : String) (slide_json : SlideJson)
    (baseline_score : Rat) (st : MatcherState) : Option Nat × Rat :=
  layouts.foldl (fun (best_alt : Option Nat × Rat) p =>
    if p.1 = layout_idx then best_alt
    else
      let alt_story : Option String := some p.2.semantic_story_type
      if alt_story = candidate_story then best_alt
      else
        let alt_score := scoreLayoutForContent p.2 content_type slide_json
        if qSub baseline_score 12 ≤ alt_score then
          let recent_story_penalty : Rat :=
            if (takeLast 3 st.used_story_types).contains alt_story then mkRat (-5) 1
            else 0
          let adj_score := qAdd alt_score recent_story_penalty
          if best_alt.2 < adj_score then (some p.1, adj_score) else best_alt
        else best_alt)
    (none, mkRat (-999) 1)

/-- Mirrors `ContentLayoutMatcher.select_layout_for_slide`; `none` models the
`KeyError` raised when the diversity check fires for an index that is absent
from `self.analyzer.layouts` (the baseline-score lookup is unguarded). -/
def selectLayoutForSlide (layouts : List (Nat × LayoutCapability))
    (slide_json : SlideJson) (slide_index total_slides : Nat)
    (st : MatcherState) : Option (Nat × MatcherState) :=
  let r := selectLayoutWithStoryAwareness layouts slide_json slide_index total_slides st
  let layout_idx := r.1
  let st1 := r.2
  if st1.used_layouts.isEmpty then
    some (layout_idx,
      { st1 with
          used_layouts := st1.used_layouts ++ [layout_idx],
          used_story_types := st1.used_story_types ++
            [(lookupLayout layouts layout_idx).map (fun l => l.semantic_story_type)] })
  else
    let candidate_story : Option String :=
      (lookupLayout layouts layout_idx).map (fun l => l.semantic_story_type)
    let avoid : Bool := 2 ≤ st1.used_story_types.length &&
      (match takeLast 2 st1.used_story_types with
       | [a, b] => b = a && a = candidate_story
       | _ => false)
    if avoid then
      match lookupLayout layouts layout_idx with
      | none => none
      | some chosen =>
          let content_type := inferContentTypeFromJson slide_json
          let baseline_score := scoreLayoutForContent chosen content_type slide_json
          let best_alt := searchAlternative layouts layout_idx candidate_story
            content_type slide_json baseline_score st1
          let final_idx := match best_alt.1 with
            | some i => i
            | none => layout_idx
          some (final_idx, appendAndTruncate layouts st1 final_idx)
    else
      some (layout_idx, appendAndTruncate layouts st1 layout_idx)

/-! ## Content-to-placeholder mapping -/

/-- The `content_spec` values produced by `map_content_to_placeholders`.
`subtitleSpec none` models the default section-title text used when
the payload dict has no `heading`. -/
inductive ContentSpec where
  | chartSpec (data : Nat)
  | tableSpec (data : TableData)
  | subtitleSpec (heading : Option Nat)
  | bulletsSpec (items : List BulletItem)
  | iconSpec (item : BulletItem)
deriving DecidableEq, Repr

/-- Python dict assignment `mapping[k] = v` on an insertion-ordered dict. -/
def dictInsert (m : List (Nat × ContentSpec)) (k : Nat) (v : ContentSpec) :
    List (Nat × ContentSpec) :=
  if m.any (fun p => p.1 = k) then
    m.map (fun p => if p.1 = k then (k, v) else p)
  else m ++ [(k, v)]

/-- Modelled from the spec: `_is_icon_slide` is called by
`map_content_to_placeholders` (and by `pptx_helper.py`) but is defined
nowhere in the repository.  Per spec §4.5, a payload is icon-like exactly
when its bullet entries are all icon-marked strings, matching the
`pictogram` classification of `_infer_content_type_from_json`. -/
def isIconSlide (slide_json : SlideJson) : Bool :=
  match slide_json.bullet_points with
  | none => false
  | some bullets =>
      (!bullets.isEmpty) && bullets.all (fun item =>
        match item with
        | .str _ hasIcon => hasIcon
        | _ => false)

/-- One turn of the multi-section mapping loop of
`map_content_to_placeholders` (CASE 2): write the subtitle text of the section
and the bullet list of its first content area; a non-dict entry raises
(`AttributeError` on `.get`), modelled as `none`. -/
def mapSectionsStep (acc : Option (List (Nat × ContentSpec)))
    (pr : BulletItem × Section) : Option (List (Nat × ContentSpec)) :=
  acc.bind (fun m =>
    match pr.1 with
    | .dict heading bps =>
        let m := dictInsert m pr.2.subtitle.idx (ContentSpec.subtitleSpec heading)
        let m := match pr.2.content_areas with
          | c :: _ =>
              dictInsert m c.idx
                (ContentSpec.bulletsSpec ((bps.getD []).map BulletLeaf.toItem))
          | [] => m
        some m
    | _ => none)

/-- Mirrors `ContentLayoutMatcher.map_content_to_placeholders`; `none` models
a raised exception: `ValueError` from `max` of an empty placeholder list, or
`AttributeError` when a multi-section loop meets a non-dict entry. -/
def mapContentToPlaceholders (slide_json : SlideJson) (lc : LayoutCapability) :
    Option (List (Nat × ContentSpec)) :=
  let bullets := slide_json.bullet_points.getD []
  match slide_json.chart with
  | some c =>
      (maxByArea lc.content_placeholders).map
        (fun largest => [(largest.idx, ContentSpec.chartSpec c)])
  | none =>
  match slide_json.table with
  | some t =>
      (maxByArea lc.content_placeholders).map
        (fun largest => [(largest.idx, ContentSpec.tableSpec t)])
  | none =>
  if 2 ≤ lc.semantic_sections.length then
    match bullets with
    | BulletItem.dict _ _ :: _ =>
        ((bullets.take lc.semantic_sections.length).zip lc.semantic_sections).foldl
          mapSectionsStep (some [])
    | _ => some []
  else if isIconSlide slide_json then
    let icon_items := bullets.filter (fun item =>
      match item with
      | .str _ hasIcon => hasIcon
      | _ => false)
    match lc.kpi_grid with
    | some grid =>
        some ((icon_items.zip grid.boxes).foldl
          (fun m pr => dictInsert m pr.2.idx (ContentSpec.iconSpec pr.1)) [])
    | none =>
        let sorted_phs := sortByLeft lc.content_placeholders
        some ((icon_items.zip sorted_phs).foldl
          (fun m pr => dictInsert m pr.2.idx (ContentSpec.iconSpec pr.1)) [])
  else if bullets.isEmpty then some []
  else
    (maxByArea lc.content_placeholders).map
      (fun largest => [(largest.idx, ContentSpec.bulletsSpec bullets)])

/-! ## Spec-side formulas and concrete objects used by the claims -/

/-- The complexity formula exactly as the spec states it:
`clamp(15·sections + 8·placeholders + 5·small_boxes, 0, 100)`. -/
def claimedComplexity (sections placeholders small_boxes : Nat) : Rat :=
  min (max (15 * (sections : Rat) + 8 * (placeholders : Rat) + 5 * (small_boxes : Rat)) 0) 100

/-- The complexity formula as the code computes it: each term capped
separately (`min(15·sections, 40) + min(8·placeholders, 40) +
min(5·small_boxes, 20)`, then capped at 100). -/
def amendedComplexity (sections placeholders small_boxes : Nat) : Rat :=
  min (min (15 * (sections : Rat)) 40 + min (8 * (placeholders : Rat)) 40 +
       min (5 * (small_boxes : Rat)) 20) 100

/-- A small content placeholder (area 2) used by several scenarios. -/
def smallPh (idx : Nat) (left top : Rat) : PlaceholderInfo :=
  mkPlaceholderInfo idx "BODY" 2 left top 2 1 2 "content"

/-- The story type at position `i` of the arc for `n` slides, per the words of
the claim: an opening of `⌈n/10⌉` `focused_message` slides, then `⌊0.7·n⌋` body
slides cycling through `bodyTypes`, then a closing of `metrics_dashboard`
slides whose final slide is `focused_message`. -/
def claimArcAt (n i : Nat) : String :=
  let opening := (n + 9) / 10
  let body := 7 * n / 10
  if i < opening then "focused_message"
  else if i < opening + body then bodyTypes.getD ((i - opening) % 7) ""
  else if i + 1 = n then "focused_message"
  else "metrics_dashboard"

/-- The story type at position `i` of the arc for `n` slides, as the code
builds it: the opening has `max(1, n // 10)` slides (not `⌈n/10⌉`). -/
def amendedArcAt (n i : Nat) : String :=
  let opening := max 1 (n / 10)
  let body := 7 * n / 10
  if i < opening then "focused_message"
  else if i < opening + body then bodyTypes.getD ((i - opening) % 7) ""
  else if i + 1 = n then "focused_message"
  else "metrics_dashboard"

/-- Scenario A geometry: a subtitle with one content placeholder of area 50
(10×5, aspect ratio 2.0) half a unit below it. -/
def scenarioASubtitle : PlaceholderInfo :=
  mkPlaceholderInfo 0 "BODY" 2 0 1 5 (mkRat 2 5) 2 "subtitle"

/-- Scenario A content placeholder: area 50, aspect ratio 2.0. -/
def scenarioAContent : PlaceholderInfo :=
  mkPlaceholderInfo 1 "BODY" 2 0 (mkRat 3 2) 10 5 50 "content"

/-! ## Concrete generation run for the diversity claim (C1) -/

/-- A capacity record with room for ten bullet lines and nothing else. -/
def plainCapacity : ContentCapacity :=
  { bullets_max_lines := 10, bullets_chars_per_line := 0, bullets_estimated_words := 0,
    table_max_cols := 0, table_max_rows := 0, chart_suitable := false,
    chart_available_area := 0, kpis_count := 0, pictograms_suitable := false,
    pictograms_estimated_count := 0, sections := 0 }

/-- A bullet-friendly layout with story type `data_visualization` and high
executive suitability (content score 100 for a one-line bullet payload). -/
def layoutDV : LayoutCapability :=
  { name := "Title and Content", semantic_story_type := "data_visualization",
    executive_suitability := 80, best_for := ["bullets"], visual_balance := 0,
    fill_difficulty := "easy", content_density_recommendation := some ⟨1⟩,
    content_capacity := plainCapacity, semantic_sections := [],
    content_placeholders := [], subtitle_placeholders := [], kpi_grid := none,
    spatial_group_names := [] }

/-- A bullet-friendly layout with story type `three_stage_narrative` and zero
executive suitability (content score 93 for a one-line bullet payload, within
12 points of the 100 of `layoutDV`). -/
def layoutTSN : LayoutCapability :=
  { layoutDV with name := "Comparison",
                  semantic_story_type := "three_stage_narrative",
                  executive_suitability := 0 }

/-- An analyzer with the two layouts above at indices 0 and 1. -/
def c1Layouts : List (Nat × LayoutCapability) := [(0, layoutDV), (1, layoutTSN)]

/-- A one-bullet slide payload (content type `bullets`). -/
def c1Slide : SlideJson :=
  { chart := none, table := none, bullet_points := some [BulletItem.str 1 false] }

/-- The first `select_layout_for_slide` call of a fresh run. -/
def c1FirstCall : Option (Nat × MatcherState) :=
  selectLayoutForSlide c1Layouts c1Slide 0 10 initialMatcherState

/-- The matcher state after the first call. -/
def c1StateAfter1 : MatcherState := (c1FirstCall.getD (0, initialMatcherState)).2

/-! ## Placeholder mapping (C4) -/

/-- A truthy chart payload. -/
def chartSlide : SlideJson := { chart := some 7, table := none, bullet_points := none }

/-- A comparison payload: one `{heading, bullet_points}` section dict. -/
def comparisonSlide : SlideJson :=
  { chart := none, table := none,
    bullet_points := some [BulletItem.dict (some 5) (some [⟨3, false⟩])] }

/-- A layout with a single content placeholder (index 4) and no semantic
sections. -/
def layoutOneContent : LayoutCapability :=
  { layoutDV with content_placeholders := [smallPh 4 0 0] }

/-- Payload `bullet_points` lists whose head is a section dict consist entirely of
section dicts (the shape the content generator produces). -/
def bulletsDictHomogeneous (sj : SlideJson) : Prop :=
  match sj.bullet_points with
  | some (BulletItem.dict _ _ :: rest) =>
      ∀ x ∈ rest, match x with | BulletItem.dict _ _ => True | _ => False
  | _ => True

/-- Section entries that are dicts (`{heading, bullet_points}`). -/
def isDictItem (x : BulletItem) : Prop :=
  match x with | BulletItem.dict _ _ => True | _ => False

/-! ## The placeholder loop of `_analyze_single_layout` (C10) -/

/-- Raw shape data as read from `layout.placeholders`: placeholder index,
type id, and geometry in EMU (divided by 914400 to inches, as in the
source). -/
structure RawShape where
  ph_idx : Nat
  type_id : Nat
  leftEmu : Int
  topEmu : Int
  widthEmu : Int
  heightEmu : Int
deriving DecidableEq, Repr

/-- The `PLACEHOLDER_TYPE_NAMES` table with the UNKNOWN fallback. -/
def placeholderTypeName (type_id : Nat) : String :=
  match type_id with
  | 1 => "TITLE" | 2 => "BODY" | 3 => "CENTER_TITLE" | 4 => "SUBTITLE"
  | 5 => "DATE" | 6 => "SLIDE_NUMBER" | 7 => "FOOTER" | 8 => "HEADER"
  | 9 => "OBJECT" | 10 => "CHART" | 11 => "TABLE" | 12 => "CLIP_ART"
  | 13 => "ORG_CHART" | 14 => "MEDIA" | 15 => "PICTURE"
  | 16 => "VERTICAL_BODY" | 17 => "VERTICAL_OBJECT" | 18 => "VERTICAL_TITLE"
  | _ => "UNKNOWN_" ++ toString type_id

/-- The width `shape.width / 914400.0`. -/
def shapeWidth (s : RawShape) : Rat := qDiv (s.widthEmu : Rat) 914400

/-- The height `shape.height / 914400.0`. -/
def shapeHeight (s : RawShape) : Rat := qDiv (s.heightEmu : Rat) 914400

/-- The area `width * height`. -/
def shapeArea (s : RawShape) : Rat := qMul (shapeWidth s) (shapeHeight s)

/-- The role computed for a shape by `_classify_placeholder_role`. -/
def roleOf (s : RawShape) : String :=
  classifyPlaceholderRole s.type_id (shapeWidth s) (shapeHeight s) (shapeArea s)

/-- The `PlaceholderInfo` built for one shape, including the (no-op) role
overrides for title and subtitle type ids. -/
def infoOf (s : RawShape) : PlaceholderInfo :=
  let info := mkPlaceholderInfo s.ph_idx (placeholderTypeName s.type_id) s.type_id
    (qDiv (s.leftEmu : Rat) 914400) (qDiv (s.topEmu : Rat) 914400)
    (shapeWidth s) (shapeHeight s) (shapeArea s) (roleOf s)
  if s.type_id = 1 then { info with role := "title" }
  else if s.type_id = 4 then { info with role := "subtitle" }
  else info

/-- The shapes the loop adds to `subtitle_placeholders`. -/
def subtitleAdd (s : RawShape) : List PlaceholderInfo :=
  if s.type_id = 4 then [infoOf s]
  else if [2, 9, 16, 17].contains s.type_id ∧ roleOf s = "subtitle" then [infoOf s]
  else []

/-- The shapes the loop adds to `content_placeholders`. -/
def contentAdd (s : RawShape) : List PlaceholderInfo :=
  if [10, 11, 15].contains s.type_id then [infoOf s]
  else if [2, 9, 16, 17].contains s.type_id ∧ roleOf s ≠ "subtitle" then [infoOf s]
  else []

/-- The shapes the loop additionally adds to `text_placeholders`. -/
def textAdd (s : RawShape) : List PlaceholderInfo :=
  if [2, 9, 16, 17].contains s.type_id ∧ roleOf s ≠ "subtitle" ∧
      [2, 16].contains s.type_id then [infoOf s]
  else []

/-- The partition (and feature flags) accumulated by the placeholder loop of
`_analyze_single_layout`. -/
structure LayoutPartition where
  has_title : Bool
  has_subtitle : Bool
  has_chart : Bool
  has_table : Bool
  has_picture : Bool
  all_placeholders : List PlaceholderInfo
  subtitle_placeholders : List PlaceholderInfo
  content_placeholders : List PlaceholderInfo
  text_placeholders : List PlaceholderInfo
deriving DecidableEq, Repr

/-- One iteration of the placeholder loop. -/
def analyzeStep (r : LayoutPartition) (s : RawShape) : LayoutPartition :=
  { has_title := r.has_title || (s.type_id == 1),
    has_subtitle := r.has_subtitle || (s.type_id == 4),
    has_chart := r.has_chart || (s.type_id == 10),
    has_table := r.has_table || (s.type_id == 11),
    has_picture := r.has_picture || (s.type_id == 15),
    all_placeholders := r.all_placeholders ++ [infoOf s],
    subtitle_placeholders := r.subtitle_placeholders ++ subtitleAdd s,
    content_placeholders := r.content_placeholders ++ contentAdd s,
    text_placeholders := r.text_placeholders ++ textAdd s }

/-- The state before the loop: no flags, empty lists. -/
def emptyPartition : LayoutPartition :=
  { has_title := false, has_subtitle := false, has_chart := false,
    has_table := false, has_picture := false,
    all_placeholders := [], subtitle_placeholders := [],
    content_placeholders := [], text_placeholders := [] }

/-- The placeholder loop of `_analyze_single_layout` over an ordered shape
list. -/
def analyzePlaceholders (shapes : List RawShape) : LayoutPartition :=
  shapes.foldl analyzeStep emptyPartition

/-! ## KPI grid detection (C6) -/

/-- The distinct row keys of a box list, in first-occurrence order. -/
def firstKeys (l : List PlaceholderInfo) : List Rat :=
  l.foldl (fun ks b => if rowKey b ∈ ks then ks else ks ++ [rowKey b]) []

/-- The row grouping described extensionally: one entry per distinct key, in
first-occurrence order, holding all boxes with that key in list order. -/
def specGroup (l : List PlaceholderInfo) : List (Rat × List PlaceholderInfo) :=
  (firstKeys l).map (fun k => (k, l.filter (fun b => decide (rowKey b = k))))

/-- The KPI-grid validity condition as the claim states it: at least 4 small
boxes, at least two distinct rows (top coordinate rounded to the nearest 1/3
unit) with each box sharing its row with at least 2 boxes, and the area of
every box within 30 percent of the mean area. -/
def kpiGridSpec (phs : List PlaceholderInfo) : Prop :=
  let smalls := phs.filter (fun ph => ph.is_small_box)
  let mean : Rat := (smalls.map (fun b => b.area)).sum / ((smalls.length : Nat) : Rat)
  4 ≤ smalls.length ∧
  (∃ b1 ∈ smalls, ∃ b2 ∈ smalls, rowKey b1 ≠ rowKey b2) ∧
  (∀ b ∈ smalls, 2 ≤ (smalls.filter (fun c => decide (rowKey c = rowKey b))).length) ∧
  (∀ b ∈ smalls, |b.area - mean| ≤ (3 : Rat) / 10 * mean)

/-- Scenario B: five small boxes of area 2, three at top 1 and two at top 3. -/
def scenarioBBoxes : List PlaceholderInfo :=
  [smallPh 0 0 1, smallPh 1 3 1, smallPh 2 6 1, smallPh 3 0 3, smallPh 4 3 3]

/-! ## Theorems -/

theorem qAdd_eq (a b : Rat) : qAdd a b = a + b := by
  have ha : ((a.den : Rat)) ≠ 0 := by exact_mod_cast a.den_nz
  have hb : ((b.den : Rat)) ≠ 0 := by exact_mod_cast b.den_nz
  rw [qAdd, Rat.mkRat_eq_div]
  push_cast
  conv_rhs => rw [← Rat.num_div_den a, ← Rat.num_div_den b, div_add_div _ _ ha hb]
  ring_nf

theorem qNeg_eq (a : Rat) : qNeg a = -a := by
  rw [qNeg, Rat.mkRat_eq_div]
  push_cast
  rw [neg_div, Rat.num_div_den]

theorem qSub_eq (a b : Rat) : qSub a b = a - b := by
  rw [qSub, qAdd_eq, qNeg_eq, sub_eq_add_neg]

theorem qMul_eq (a b : Rat) : qMul a b = a * b := by
  rw [qMul, Rat.mkRat_eq_div]
  push_cast
  conv_rhs => rw [← Rat.num_div_den a, ← Rat.num_div_den b, div_mul_div_comm]

theorem qDiv_eq (a b : Rat) : qDiv a b = a / b := by
  rcases eq_or_ne b 0 with hb | hb
  · subst hb
    simp [qDiv, Rat.divInt_eq_div]
  · have ha : ((a.den : Rat)) ≠ 0 := by exact_mod_cast a.den_nz
    have hbn : ((b.num : Rat)) ≠ 0 := by exact_mod_cast Rat.num_ne_zero.mpr hb
    have hA : (a.num : Rat) = a * a.den := (div_eq_iff ha).mp (Rat.num_div_den a)
    have hB : (b.num : Rat) = b * b.den := by
      have hbd : ((b.den : Rat)) ≠ 0 := by exact_mod_cast b.den_nz
      exact (div_eq_iff hbd).mp (Rat.num_div_den b)
    rw [qDiv, Rat.divInt_eq_div]
    push_cast
    rw [div_eq_div_iff (mul_ne_zero ha hbn) hb, hA, hB]
    ring

theorem qMin_eq (a b : Rat) : qMin a b = min a b := by
  rw [qMin, min_def]
  rcases le_or_lt a b with h | h
  · rw [if_neg (not_lt.mpr h), if_pos h]
  · rw [if_pos h, if_neg (not_le.mpr h)]

theorem qMax_eq (a b : Rat) : qMax a b = max a b := by
  rw [qMax, max_def]
  rcases le_or_lt a b with h | h
  · rcases eq_or_lt_of_le h with rfl | h'
    · simp
    · rw [if_pos h', if_pos h]
  · rw [if_neg (not_lt.mpr h.le), if_neg (not_le.mpr h)]

theorem qAbs_eq (a : Rat) : qAbs a = |a| := by
  rw [qAbs]
  rcases lt_or_le a 0 with h | h
  · rw [if_pos h, qNeg_eq, abs_of_neg h]
  · rw [if_neg (not_lt.mpr h), abs_of_nonneg h]

theorem qFloor_eq (a : Rat) : qFloor a = ⌊a⌋ := by
  rw [qFloor, Int.fdiv_eq_ediv _ (by exact_mod_cast Nat.zero_le a.den), Rat.floor_def]

theorem qSum_eq (l : List Rat) : qSum l = l.sum := by
  suffices h : ∀ a : Rat, l.foldl qAdd a = a + l.sum by
    simpa using h 0
  induction l with
  | nil => intro a; simp
  | cons x xs ih =>
      intro a
      simp only [List.foldl_cons, List.sum_cons, ih, qAdd_eq]
      ring

/-! ## Claim theorems -/

/-- C2 (counterexample): the single-clamp formula of the claim disagrees with
the code on a layout with no semantic sections and six small content
placeholders: the per-term caps of the code give 60 while `clamp(15·0 + 8·6 + 5·6, 0, 100) = 78`. -/
theorem complexity_claim_counterexample :
    calculateComplexity [] (List.replicate 6 (smallPh 0 0 0)) = 60 ∧
    claimedComplexity 0 6 6 = 78 ∧
    calculateComplexity [] (List.replicate 6 (smallPh 0 0 0)) ≠ claimedComplexity 0 6 6 := by
  refine ⟨by decide, ?_, ?_⟩
  · norm_num [claimedComplexity]
  · have h1 : calculateComplexity [] (List.replicate 6 (smallPh 0 0 0)) = 60 := by decide
    have h2 : claimedComplexity 0 6 6 = 78 := by norm_num [claimedComplexity]
    rw [h1, h2]
    norm_num

/-- C2 (amended): for every layout, the derived complexity score equals
`min(min(15·sections, 40) + min(8·placeholders, 40) + min(5·small_boxes, 20), 100)`
where `small_boxes` counts the small content placeholders. -/
theorem complexity_per_term_caps (semantic_sections : List Section)
    (content_placeholders : List PlaceholderInfo) :
    calculateComplexity semantic_sections content_placeholders =
      amendedComplexity semantic_sections.length content_placeholders.length
        (content_placeholders.countP (fun ph => ph.is_small_box)) := by
  unfold calculateComplexity amendedComplexity
  rw [List.countP_eq_length_filter]
  simp only [qAdd_eq, qMin_eq, qMul_eq]
  rw [zero_add]
  ring_nf

/-- C3 (counterexample): for `N = 11` the opening length under the claim is
`⌈11/10⌉ = 2`, but the arc built by the code has only one `focused_message` opening
slide: position 1 is already the first body type `data_visualization`. -/
theorem story_arc_claim_counterexample :
    (buildSectionSequence 11).getD 1 "" = "data_visualization" ∧
    claimArcAt 11 1 = "focused_message" ∧
    (buildSectionSequence 11).getD 1 "" ≠ claimArcAt 11 1 := by
  refine ⟨by decide, by decide, by decide⟩

/-- C3 (amended): for every `1 ≤ N ≤ 89` the planned story arc has length `N`
and position `i` holds: `focused_message` for the `max(1, ⌊N/10⌋)` opening
slides, the fixed 7-type cycle for the next `⌊0.7·N⌋` body slides, and for the
remaining closing slides `metrics_dashboard`, except the final slide of the
presentation which is `focused_message`.  (Above `N = 89` the floating-point
body count `int(N * 0.7)` of the source starts to deviate from `⌊0.7·N⌋`.) -/
theorem story_arc_structure (n : Nat) (h1 : 1 ≤ n) (h2 : n ≤ 89) :
    buildSectionSequence n = (List.range n).map (amendedArcAt n) := by
  have H : ∀ m, m < 90 →
      (1 ≤ m → buildSectionSequence m = (List.range m).map (amendedArcAt m)) := by
    decide
  exact H n (by omega) h1

/-- Witness for `story_arc_structure` at `n = 12`. -/
theorem story_arc_structure_witness :
    (1 ≤ 12 ∧ 12 ≤ 89) ∧
      buildSectionSequence 12 = (List.range 12).map (amendedArcAt 12) :=
  ⟨⟨by decide, by decide⟩, story_arc_structure 12 (by decide) (by decide)⟩

/-- C5 (counterexample): a layout whose analysis yields exactly one content
placeholder of area 50 and aspect ratio 2.0 but no subtitle produces zero
semantic sections, so the inferred story type is `general_content`, not
`data_visualization`. -/
theorem story_type_claim_counterexample :
    inferSemanticStoryType
        (groupPlaceholdersSemantically [] [scenarioAContent])
        [scenarioAContent] (detectKpiGrid [scenarioAContent]) =
      some "general_content" ∧
    inferSemanticStoryType
        (groupPlaceholdersSemantically [] [scenarioAContent])
        [scenarioAContent] (detectKpiGrid [scenarioAContent]) ≠
      some "data_visualization" := by
  exact ⟨by decide, by decide⟩

/-- C5 (amended): whenever the analysis of a layout yields exactly one semantic
section, no KPI grid, and its largest content placeholder has area above 40
with aspect ratio above 1.5, the inferred story type is `data_visualization`
(the Scenario A geometry realises this when the area-50 placeholder sits under
a subtitle). -/
theorem story_type_single_large_wide (semantic_sections : List Section)
    (content_placeholders : List PlaceholderInfo) (largest : PlaceholderInfo)
    (h1 : semantic_sections.length = 1)
    (h2 : detectKpiGrid content_placeholders = none)
    (h3 : maxByArea content_placeholders = some largest)
    (h4 : 40 < largest.area) (h5 : mkRat 3 2 < PlaceholderInfo.aspect_ratio largest) :
    inferSemanticStoryType semantic_sections content_placeholders
        (detectKpiGrid content_placeholders) = some "data_visualization" := by
  rw [h2]
  unfold inferSemanticStoryType
  simp [h1, h3, h4, h5]

/-- Witness for `story_type_single_large_wide` on the Scenario A geometry. -/
theorem story_type_single_large_wide_witness :
    ((groupPlaceholdersSemantically [scenarioASubtitle] [scenarioAContent]).length = 1 ∧
     detectKpiGrid [scenarioAContent] = none ∧
     maxByArea [scenarioAContent] = some scenarioAContent ∧
     40 < scenarioAContent.area ∧ mkRat 3 2 < PlaceholderInfo.aspect_ratio scenarioAContent) ∧
    inferSemanticStoryType
        (groupPlaceholdersSemantically [scenarioASubtitle] [scenarioAContent])
        [scenarioAContent] (detectKpiGrid [scenarioAContent]) =
      some "data_visualization" :=
  ⟨⟨by decide, by decide, by decide, by decide, by decide⟩,
   story_type_single_large_wide
     (groupPlaceholdersSemantically [scenarioASubtitle] [scenarioAContent])
     [scenarioAContent] scenarioAContent (by decide) (by decide) (by decide)
     (by decide) (by decide)⟩

/-- C7: after construction, every placeholder with non-negative area satisfies
exactly one of `is_small` (area < 3), `is_medium` (3 ≤ area < 15), `is_large`
(area ≥ 15); area 3.0 is medium and area 15.0 is large. -/
theorem size_flags_trichotomy (idx : Nat) (type : String) (type_id : Nat)
    (left top width height area : Rat) (role : String) (h : 0 ≤ area) :
    (((mkPlaceholderInfo idx type type_id left top width height area role).is_small_box = true ∧
      (mkPlaceholderInfo idx type type_id left top width height area role).is_medium_box = false ∧
      (mkPlaceholderInfo idx type type_id left top width height area role).is_large_box = false) ∨
     ((mkPlaceholderInfo idx type type_id left top width height area role).is_small_box = false ∧
      (mkPlaceholderInfo idx type type_id left top width height area role).is_medium_box = true ∧
      (mkPlaceholderInfo idx type type_id left top width height area role).is_large_box = false) ∨
     ((mkPlaceholderInfo idx type type_id left top width height area role).is_small_box = false ∧
      (mkPlaceholderInfo idx type type_id left top width height area role).is_medium_box = false ∧
      (mkPlaceholderInfo idx type type_id left top width height area role).is_large_box = true)) ∧
    (mkPlaceholderInfo idx type type_id left top width height 3 role).is_medium_box = true ∧
    (mkPlaceholderInfo idx type type_id left top width height 15 role).is_large_box = true := by
  have hs : (mkPlaceholderInfo idx type type_id left top width height area role).is_small_box
      = decide (area < 3) := rfl
  have hm : (mkPlaceholderInfo idx type type_id left top width height area role).is_medium_box
      = decide (3 ≤ area ∧ area < 15) := rfl
  have hl : (mkPlaceholderInfo idx type type_id left top width height area role).is_large_box
      = decide (15 ≤ area) := rfl
  refine ⟨?_,
    by
      rw [show (mkPlaceholderInfo idx type type_id left top width height 3 role).is_medium_box
          = decide ((3 : Rat) ≤ 3 ∧ (3 : Rat) < 15) from rfl]
      decide,
    by
      rw [show (mkPlaceholderInfo idx type type_id left top width height 15 role).is_large_box
          = decide ((15 : Rat) ≤ 15) from rfl]
      decide⟩
  rcases lt_or_le area 3 with h3 | h3
  · exact Or.inl ⟨by rw [hs]; exact decide_eq_true h3,
      by rw [hm]; exact decide_eq_false (by rintro ⟨h', _⟩; linarith),
      by rw [hl]; exact decide_eq_false (by intro h'; linarith)⟩
  · rcases lt_or_le area 15 with h15 | h15
    · exact Or.inr (Or.inl ⟨by rw [hs]; exact decide_eq_false (by intro h'; linarith),
        by rw [hm]; exact decide_eq_true ⟨h3, h15⟩,
        by rw [hl]; exact decide_eq_false (by intro h'; linarith)⟩)
    · exact Or.inr (Or.inr ⟨by rw [hs]; exact decide_eq_false (by intro h'; linarith),
        by rw [hm]; exact decide_eq_false (by rintro ⟨-, h'⟩; linarith),
        by rw [hl]; exact decide_eq_true h15⟩)

/-- Witness for `size_flags_trichotomy` at area 7. -/
theorem size_flags_trichotomy_witness :
    (0 : Rat) ≤ 7 ∧
    ((((mkPlaceholderInfo 0 "BODY" 2 0 0 7 1 7 "content").is_small_box = true ∧
       (mkPlaceholderInfo 0 "BODY" 2 0 0 7 1 7 "content").is_medium_box = false ∧
       (mkPlaceholderInfo 0 "BODY" 2 0 0 7 1 7 "content").is_large_box = false) ∨
      ((mkPlaceholderInfo 0 "BODY" 2 0 0 7 1 7 "content").is_small_box = false ∧
       (mkPlaceholderInfo 0 "BODY" 2 0 0 7 1 7 "content").is_medium_box = true ∧
       (mkPlaceholderInfo 0 "BODY" 2 0 0 7 1 7 "content").is_large_box = false) ∨
      ((mkPlaceholderInfo 0 "BODY" 2 0 0 7 1 7 "content").is_small_box = false ∧
       (mkPlaceholderInfo 0 "BODY" 2 0 0 7 1 7 "content").is_medium_box = false ∧
       (mkPlaceholderInfo 0 "BODY" 2 0 0 7 1 7 "content").is_large_box = true)) ∧
     (mkPlaceholderInfo 0 "BODY" 2 0 0 7 1 3 "content").is_medium_box = true ∧
     (mkPlaceholderInfo 0 "BODY" 2 0 0 7 1 15 "content").is_large_box = true) :=
  ⟨by norm_num, size_flags_trichotomy 0 "BODY" 2 0 0 7 1 7 "content" (by norm_num)⟩

/-- C9: for non-positive heights the aspect ratio is the guarded fallback 1
(both in `PlaceholderInfo.__post_init__` and in the role classifier, whose
aspect test then always resolves to the `content` branch), so neither path
divides by the height. -/
theorem aspect_ratio_guard (idx : Nat) (type : String) (type_id : Nat)
    (left top width height area : Rat) (role : String) (h : height ≤ 0) :
    aspectOf width height = 1 ∧
    PlaceholderInfo.aspect_ratio (mkPlaceholderInfo idx type type_id left top width height area role) = 1 ∧
    classifyPlaceholderRole type_id width height area =
      (if type_id = 4 then "subtitle"
       else if type_id = 1 then "title"
       else if [5, 6, 7, 8].contains type_id then "footer"
       else if [10, 11, 15].contains type_id then "content"
       else if [2, 9, 16, 17].contains type_id then
         if height < mkRat 1 2 then "subtitle"
         else if area < 1 then "subtitle"
         else "content"
       else "content") := by
  have haspect : aspectOf width height = 1 := by
    unfold aspectOf
    rw [if_neg (not_lt.mpr h)]
  refine ⟨haspect, ?_, ?_⟩
  · simp only [mkPlaceholderInfo, haspect]
  · unfold classifyPlaceholderRole
    rw [haspect]
    have h1 : ¬ ((3 : Rat) < 1 ∧ height < mkRat 4 5) := by
      rintro ⟨h3, -⟩
      norm_num at h3
    split_ifs <;> first | rfl | (exact absurd ‹_› h1) | rfl

/-- Witness for `aspect_ratio_guard` at height 0. -/
theorem aspect_ratio_guard_witness :
    (0 : Rat) ≤ 0 ∧
    (aspectOf 5 0 = 1 ∧
     PlaceholderInfo.aspect_ratio (mkPlaceholderInfo 0 "BODY" 2 0 0 5 0 0 "content") = 1 ∧
     classifyPlaceholderRole 2 5 0 0 =
       (if (2 : Nat) = 4 then "subtitle"
        else if (2 : Nat) = 1 then "title"
        else if [5, 6, 7, 8].contains 2 then "footer"
        else if [10, 11, 15].contains 2 then "content"
        else if [2, 9, 16, 17].contains 2 then
          if (0 : Rat) < mkRat 1 2 then "subtitle"
          else if (0 : Rat) < 1 then "subtitle"
          else "content"
        else "content")) :=
  ⟨le_refl 0, aspect_ratio_guard 0 "BODY" 2 0 0 5 0 0 "content" (le_refl 0)⟩

/-- C1 (code bug): on the second slide of a run — when only one previous
selection exists, so the "both of the previous two selections" condition of
the spec cannot hold — the initial story-aware choice is layout 0 again, yet
`select_layout_for_slide` switches to layout 1: the history it checks already
contains the own entry of the current candidate, appended by
`select_layout_with_story_awareness`, so the 3-in-a-row guard fires on a mere
2-in-a-row and overrides the pick, contradicting the own comments of the source. -/
theorem diversity_guard_fires_after_single_selection :
    c1FirstCall.map (fun r => r.1) = some 0 ∧
    (selectLayoutWithStoryAwareness c1Layouts c1Slide 1 10 c1StateAfter1).1 = 0 ∧
    (selectLayoutForSlide c1Layouts c1Slide 1 10 c1StateAfter1).map (fun r => r.1) = some 1 ∧
    c1StateAfter1.used_story_types =
      [some "data_visualization", some "data_visualization"] ∧
    layoutDV.semantic_story_type ≠ layoutTSN.semantic_story_type := by
  refine ⟨by decide, by decide, by decide, by decide, by decide⟩

/-- C4 (counterexample): the mapper can raise — a chart payload against a
layout with no content placeholders hits `max()` of an empty sequence
(modelled as `none`) — and the comparison fallback marks nothing as degraded:
against a layout with fewer than 2 sections the whole payload is mapped onto
the single largest content placeholder as a plain `bullets` spec. -/
theorem mapper_raises_on_empty_placeholders :
    mapContentToPlaceholders chartSlide layoutDV = none ∧
    mapContentToPlaceholders comparisonSlide layoutOneContent =
      some [(4, ContentSpec.bulletsSpec
        [BulletItem.dict (some 5) (some [⟨3, false⟩])])] := by
  exact ⟨by decide, by decide⟩

theorem maxByArea_isSome_of_ne_nil {l : List PlaceholderInfo} (h : l ≠ []) :
    (maxByArea l).isSome = true := by
  cases l with
  | nil => exact absurd rfl h
  | cons x xs => rfl

theorem mapSectionsFold_isSome :
    ∀ (pairs : List (BulletItem × Section)) (m : List (Nat × ContentSpec)),
      (∀ pr ∈ pairs, isDictItem pr.1) →
      (pairs.foldl mapSectionsStep (some m)).isSome = true
  | [], _, _ => rfl
  | ⟨x, sec⟩ :: rest, m, hall => by
      have hd := hall ⟨x, sec⟩ (List.mem_cons_self _ _)
      cases x with
      | dict heading bps =>
          simp only [List.foldl_cons, mapSectionsStep, Option.some_bind]
          exact mapSectionsFold_isSome rest _
            (fun q hq => hall q (List.mem_cons_of_mem _ hq))
      | str a b => exact absurd hd (by simp [isDictItem])
      | list items => exact absurd hd (by simp [isDictItem])

/-- C4 (amended): for homogeneous payloads the mapper raises only when the
layout has no content placeholders (and the payload demands the largest one);
with at least one content placeholder it always returns a mapping, and a
comparison payload against a layout with fewer than 2 sections falls back to
mapping the whole bullet list onto the single largest content placeholder —
with no degraded marking of any kind. -/
theorem mapper_totality_and_fallback :
    (∀ (lc : LayoutCapability) (sj : SlideJson),
        lc.content_placeholders ≠ [] → bulletsDictHomogeneous sj →
        (mapContentToPlaceholders sj lc).isSome = true) ∧
    (∀ (lc : LayoutCapability) (sj : SlideJson) (largest : PlaceholderInfo)
        (bullets : List BulletItem),
        sj.chart = none → sj.table = none → sj.bullet_points = some bullets →
        bullets ≠ [] → (∀ x ∈ bullets, isDictItem x) →
        lc.semantic_sections.length < 2 →
        maxByArea lc.content_placeholders = some largest →
        mapContentToPlaceholders sj lc =
          some [(largest.idx, ContentSpec.bulletsSpec bullets)]) := by
  constructor
  · intro lc sj hne hhom
    unfold mapContentToPlaceholders
    rcases sj with ⟨chart, table, bps⟩
    cases chart with
    | some c => simpa using maxByArea_isSome_of_ne_nil hne
    | none =>
    cases table with
    | some t => simpa using maxByArea_isSome_of_ne_nil hne
    | none =>
    simp only []
    by_cases hsec : 2 ≤ lc.semantic_sections.length
    · rw [if_pos hsec]
      rcases hbul : (Option.getD bps [] : List BulletItem) with _ | ⟨x0, rest⟩
      · simp
      · cases x0 with
        | dict heading sub =>
            have hrest : ∀ x ∈ rest,
                match x with | BulletItem.dict _ _ => True | _ => False := by
              cases bps with
              | none => simp at hbul
              | some l =>
                  simp only [Option.getD_some] at hbul
                  subst hbul
                  simpa [bulletsDictHomogeneous] using hhom
            refine mapSectionsFold_isSome _ _ ?_
            intro pr hpr
            have h1 := List.of_mem_zip hpr
            have h2 := List.mem_of_mem_take h1.1
            rcases List.mem_cons.mp h2 with h | h
            · rw [h]; trivial
            · have := hrest pr.1 h
              cases pr1 : pr.1 <;> rw [pr1] at this <;> first | trivial | exact this
        | str a b => simp
        | list items => simp
    · rw [if_neg hsec]
      by_cases hicon : isIconSlide ⟨none, none, bps⟩ = true
      · rw [if_pos hicon]
        cases lc.kpi_grid <;> simp
      · rw [if_neg hicon]
        by_cases hemp : (Option.getD bps [] : List BulletItem).isEmpty = true
        · simp [hemp]
        · simp only [hemp, Bool.false_eq_true, if_false]
          simpa using maxByArea_isSome_of_ne_nil hne
  · intro lc sj largest bullets hchart htable hbps hne hall hsec hmax
    rcases sj with ⟨chart, table, bps⟩
    simp only at hchart htable hbps
    subst hchart
    subst htable
    subst hbps
    unfold mapContentToPlaceholders
    simp only [Option.getD_some]
    rw [if_neg (by omega)]
    have hicon : isIconSlide ⟨none, none, some bullets⟩ = false := by
      rcases bullets with _ | ⟨x0, rest⟩
      · exact absurd rfl hne
      · have h0 := hall x0 (List.mem_cons_self x0 rest)
        cases x0 with
        | dict heading sub => simp [isIconSlide]
        | str a b => exact absurd h0 (by simp [isDictItem])
        | list items => exact absurd h0 (by simp [isDictItem])
    rw [hicon]
    simp only [Bool.false_eq_true, if_false]
    rcases bullets with _ | ⟨x0, rest⟩
    · exact absurd rfl hne
    · simp only [List.isEmpty_cons, Bool.false_eq_true, if_false]
      rw [hmax]
      rfl

theorem analyze_foldl_shift :
    ∀ (l : List RawShape) (r : LayoutPartition),
      (l.foldl analyzeStep r).content_placeholders =
        r.content_placeholders ++ (l.foldl analyzeStep emptyPartition).content_placeholders ∧
      (l.foldl analyzeStep r).subtitle_placeholders =
        r.subtitle_placeholders ++ (l.foldl analyzeStep emptyPartition).subtitle_placeholders ∧
      (l.foldl analyzeStep r).text_placeholders =
        r.text_placeholders ++ (l.foldl analyzeStep emptyPartition).text_placeholders ∧
      (l.foldl analyzeStep r).all_placeholders.length =
        r.all_placeholders.length + l.length
  | [], r => by simp [emptyPartition]
  | s :: t, r => by
      have ih1 := analyze_foldl_shift t (analyzeStep r s)
      have ih2 := analyze_foldl_shift t (analyzeStep emptyPartition s)
      simp only [List.foldl_cons]
      refine ⟨?_, ?_, ?_, ?_⟩
      · rw [ih1.1, ih2.1]
        simp [analyzeStep, emptyPartition]
      · rw [ih1.2.1, ih2.2.1]
        simp [analyzeStep, emptyPartition]
      · rw [ih1.2.2.1, ih2.2.2.1]
        simp [analyzeStep, emptyPartition]
      · rw [ih1.2.2.2]
        simp [analyzeStep]
        omega

/-- A footer-class shape (date, slide number, footer, header) adds nothing to
the subtitle, content, or text lists. -/
theorem footer_adds_nothing (s : RawShape) (h : [5, 6, 7, 8].contains s.type_id = true) :
    contentAdd s = [] ∧ subtitleAdd s = [] ∧ textAdd s = [] := by
  have h58 : s.type_id = 5 ∨ s.type_id = 6 ∨ s.type_id = 7 ∨ s.type_id = 8 := by
    simpa using h
  rcases h58 with h' | h' | h' | h' <;>
    simp [contentAdd, subtitleAdd, textAdd, h']

theorem analyze_filter_invariant :
    ∀ (l : List RawShape) (r : LayoutPartition),
      ((l.filter (fun s => !([5, 6, 7, 8].contains s.type_id))).foldl analyzeStep r).content_placeholders
          = (l.foldl analyzeStep r).content_placeholders ∧
      ((l.filter (fun s => !([5, 6, 7, 8].contains s.type_id))).foldl analyzeStep r).subtitle_placeholders
          = (l.foldl analyzeStep r).subtitle_placeholders ∧
      ((l.filter (fun s => !([5, 6, 7, 8].contains s.type_id))).foldl analyzeStep r).text_placeholders
          = (l.foldl analyzeStep r).text_placeholders
  | [], r => by simp
  | s :: t, r => by
      by_cases hk : [5, 6, 7, 8].contains s.type_id = true
      · have hadds := footer_adds_nothing s hk
        have ihf := analyze_filter_invariant t r
        have hshift := analyze_foldl_shift t (analyzeStep r s)
        have hshift0 := analyze_foldl_shift t r
        rw [List.filter_cons, hk]
        simp only [Bool.not_true, Bool.false_eq_true, if_false]
        refine ⟨?_, ?_, ?_⟩
        · rw [ihf.1, List.foldl_cons, hshift.1, hshift0.1]
          simp [analyzeStep, hadds.1]
        · rw [ihf.2.1, List.foldl_cons, hshift.2.1, hshift0.2.1]
          simp [analyzeStep, hadds.2.1]
        · rw [ihf.2.2, List.foldl_cons, hshift.2.2.1, hshift0.2.2.1]
          simp [analyzeStep, hadds.2.2]
      · have hk' : ([5, 6, 7, 8].contains s.type_id) = false := by simpa using hk
        rw [List.filter_cons, hk']
        simp only [Bool.not_false, if_true, List.foldl_cons]
        exact analyze_filter_invariant t (analyzeStep r s)

/-- The function `infoOf` preserves the raw type id. -/
theorem infoOf_type_id (s : RawShape) : (infoOf s).type_id = s.type_id := by
  unfold infoOf
  split_ifs <;> rfl

theorem analyze_members_not_footer :
    ∀ (l : List RawShape) (r : LayoutPartition),
      (∀ p ∈ r.content_placeholders, ([5, 6, 7, 8].contains p.type_id) = false) →
      (∀ p ∈ r.subtitle_placeholders, ([5, 6, 7, 8].contains p.type_id) = false) →
      (∀ p ∈ r.text_placeholders, ([5, 6, 7, 8].contains p.type_id) = false) →
      (∀ p ∈ (l.foldl analyzeStep r).content_placeholders,
          ([5, 6, 7, 8].contains p.type_id) = false) ∧
      (∀ p ∈ (l.foldl analyzeStep r).subtitle_placeholders,
          ([5, 6, 7, 8].contains p.type_id) = false) ∧
      (∀ p ∈ (l.foldl analyzeStep r).text_placeholders,
          ([5, 6, 7, 8].contains p.type_id) = false)
  | [], r => fun hc hs ht => ⟨hc, hs, ht⟩
  | s :: t, r => by
      intro hc hs ht
      by_cases hk : [5, 6, 7, 8].contains s.type_id = true
      · have hadds := footer_adds_nothing s hk
        refine analyze_members_not_footer t (analyzeStep r s) ?_ ?_ ?_
        · simpa [analyzeStep, hadds.1] using hc
        · simpa [analyzeStep, hadds.2.1] using hs
        · simpa [analyzeStep, hadds.2.2] using ht
      · have hk' : ([5, 6, 7, 8].contains s.type_id) = false := by
          simpa using hk
        have hmem : ∀ p ∈ [infoOf s], ([5, 6, 7, 8].contains p.type_id) = false := by
          intro p hp
          rcases List.mem_singleton.mp hp with rfl
          rw [infoOf_type_id]
          exact hk'
        refine analyze_members_not_footer t (analyzeStep r s) ?_ ?_ ?_
        · intro p hp
          rcases List.mem_append.mp hp with h | h
          · exact hc p h
          · refine hmem p ?_
            have hsub : contentAdd s = [] ∨ contentAdd s = [infoOf s] := by
              unfold contentAdd
              split_ifs <;> simp
            rcases hsub with he | he <;> rw [he] at h
            · simp at h
            · exact h
        · intro p hp
          rcases List.mem_append.mp hp with h | h
          · exact hs p h
          · refine hmem p ?_
            have hsub : subtitleAdd s = [] ∨ subtitleAdd s = [infoOf s] := by
              unfold subtitleAdd
              split_ifs <;> simp
            rcases hsub with he | he <;> rw [he] at h
            · simp at h
            · exact h
        · intro p hp
          rcases List.mem_append.mp hp with h | h
          · exact ht p h
          · refine hmem p ?_
            have hsub : textAdd s = [] ∨ textAdd s = [infoOf s] := by
              unfold textAdd
              split_ifs <;> simp
            rcases hsub with he | he <;> rw [he] at h
            · simp at h
            · exact h

/-- C10: footer-class placeholders (type ids 5–8: date, slide number, footer,
header) are classified `footer`, never enter the subtitle/content/text lists
(removing them from the input leaves those lists unchanged, so no derived
quantity computed from them can be affected), and land only in
`all_placeholders`, which records every shape. -/
theorem footer_placeholders_isolated :
    (∀ width height area : Rat, classifyPlaceholderRole 5 width height area = "footer") ∧
    (∀ width height area : Rat, classifyPlaceholderRole 6 width height area = "footer") ∧
    (∀ width height area : Rat, classifyPlaceholderRole 7 width height area = "footer") ∧
    (∀ width height area : Rat, classifyPlaceholderRole 8 width height area = "footer") ∧
    (∀ shapes : List RawShape,
      (analyzePlaceholders
          (shapes.filter (fun s => !([5, 6, 7, 8].contains s.type_id)))).content_placeholders
        = (analyzePlaceholders shapes).content_placeholders ∧
      (analyzePlaceholders
          (shapes.filter (fun s => !([5, 6, 7, 8].contains s.type_id)))).subtitle_placeholders
        = (analyzePlaceholders shapes).subtitle_placeholders ∧
      (analyzePlaceholders
          (shapes.filter (fun s => !([5, 6, 7, 8].contains s.type_id)))).text_placeholders
        = (analyzePlaceholders shapes).text_placeholders ∧
      (analyzePlaceholders shapes).all_placeholders.length = shapes.length ∧
      ((analyzePlaceholders shapes).content_placeholders.all
          (fun p => !([5, 6, 7, 8].contains p.type_id))) = true ∧
      ((analyzePlaceholders shapes).subtitle_placeholders.all
          (fun p => !([5, 6, 7, 8].contains p.type_id))) = true ∧
      ((analyzePlaceholders shapes).text_placeholders.all
          (fun p => !([5, 6, 7, 8].contains p.type_id))) = true) := by
  refine ⟨fun _ _ _ => rfl, fun _ _ _ => rfl, fun _ _ _ => rfl, fun _ _ _ => rfl, ?_⟩
  intro shapes
  have hfil := analyze_filter_invariant shapes emptyPartition
  have hshift := analyze_foldl_shift shapes emptyPartition
  have hmem := analyze_members_not_footer shapes emptyPartition
    (by intro p hp; simp [emptyPartition] at hp)
    (by intro p hp; simp [emptyPartition] at hp)
    (by intro p hp; simp [emptyPartition] at hp)
  refine ⟨hfil.1, hfil.2.1, hfil.2.2, ?_, ?_, ?_, ?_⟩
  · simpa [emptyPartition] using hshift.2.2.2
  · rw [List.all_eq_true]
    intro p hp
    simpa using hmem.1 p hp
  · rw [List.all_eq_true]
    intro p hp
    simpa using hmem.2.1 p hp
  · rw [List.all_eq_true]
    intro p hp
    simpa using hmem.2.2 p hp

/-! ## History bounding (C8) -/

theorem takeLast_length {α : Type} (n : Nat) (l : List α) :
    (takeLast n l).length = min n l.length := by
  unfold takeLast
  rw [List.length_drop]
  omega

theorem takeLast_suffix {α : Type} (n : Nat) (l : List α) : takeLast n l <:+ l :=
  List.drop_suffix _ _

theorem appendAndTruncate_spec (layouts : List (Nat × LayoutCapability))
    (st : MatcherState) (idx : Nat) :
    (appendAndTruncate layouts st idx).used_layouts.length =
      min (st.used_layouts.length + 1) 50 ∧
    (appendAndTruncate layouts st idx).used_story_types.length =
      min (st.used_story_types.length + 1) 50 ∧
    (appendAndTruncate layouts st idx).used_layouts <:+ st.used_layouts ++ [idx] ∧
    (appendAndTruncate layouts st idx).used_story_types <:+
      st.used_story_types ++
        [(lookupLayout layouts idx).map (fun l => l.semantic_story_type)] := by
  unfold appendAndTruncate
  dsimp only
  refine ⟨?_, ?_, ?_, ?_⟩
  · by_cases h : 50 < st.used_layouts.length + 1
    · rw [if_pos (by simpa using h), takeLast_length]
      simp only [List.length_append, List.length_singleton]
      omega
    · rw [if_neg (by simpa using h)]
      simp only [List.length_append, List.length_singleton]
      omega
  · by_cases h : 50 < st.used_story_types.length + 1
    · rw [if_pos (by simpa using h), takeLast_length]
      simp only [List.length_append, List.length_singleton]
      omega
    · rw [if_neg (by simpa using h)]
      simp only [List.length_append, List.length_singleton]
      omega
  · by_cases h : 50 < (st.used_layouts ++ [idx]).length
    · rw [if_pos h]
      exact takeLast_suffix _ _
    · rw [if_neg h]
  · by_cases h : 50 < (st.used_story_types ++
        [(lookupLayout layouts idx).map (fun l => l.semantic_story_type)]).length
    · rw [if_pos h]
      exact takeLast_suffix _ _
    · rw [if_neg h]

theorem storyAware_state (layouts : List (Nat × LayoutCapability))
    (slide_json : SlideJson) (slide_index total_slides : Nat) (st : MatcherState) :
    ((selectLayoutWithStoryAwareness layouts slide_json slide_index total_slides
          st).2.used_layouts = st.used_layouts ∧
      (selectLayoutWithStoryAwareness layouts slide_json slide_index total_slides
          st).2.used_story_types = st.used_story_types) ∨
    ((selectLayoutWithStoryAwareness layouts slide_json slide_index total_slides
          st).2.used_layouts = st.used_layouts ++
        [(selectLayoutWithStoryAwareness layouts slide_json slide_index total_slides
            st).1] ∧
      ∃ s, (selectLayoutWithStoryAwareness layouts slide_json slide_index total_slides
          st).2.used_story_types = st.used_story_types ++ [s]) := by
  unfold selectLayoutWithStoryAwareness
  dsimp only
  generalize pickBest _ = pb
  cases pb with
  | none => exact Or.inl ⟨rfl, rfl⟩
  | some x =>
      rcases x with ⟨sc, bi, bl⟩
      exact Or.inr ⟨rfl, some bl.semantic_story_type, rfl⟩

/-- C8: after every `select_layout_for_slide` call (the layout-selection
operation of a generation run) whose state had equally long histories, both
histories hold at most 50 entries, stay equally long, and are suffixes of the
previous histories extended by at most two new entries — i.e. the lists are
truncated to the most recent 50 entries. -/
theorem history_bounded_by_50 (layouts : List (Nat × LayoutCapability))
    (slide_json : SlideJson) (slide_index total_slides : Nat)
    (st : MatcherState) (k : Nat) (st' : MatcherState)
    (hlen : st.used_layouts.length = st.used_story_types.length)
    (hrun : selectLayoutForSlide layouts slide_json slide_index total_slides st =
      some (k, st')) :
    st'.used_layouts.length ≤ 50 ∧ st'.used_story_types.length ≤ 50 ∧
    st'.used_layouts.length = st'.used_story_types.length ∧
    (∃ l₁, l₁.length ≤ 2 ∧ st'.used_layouts <:+ st.used_layouts ++ l₁) ∧
    (∃ l₂, l₂.length ≤ 2 ∧ st'.used_story_types <:+ st.used_story_types ++ l₂) := by
  have hinner := storyAware_state layouts slide_json slide_index total_slides st
  unfold selectLayoutForSlide at hrun
  set r := selectLayoutWithStoryAwareness layouts slide_json slide_index total_slides st
    with hr
  by_cases hemp : r.2.used_layouts.isEmpty = true
  · rw [if_pos hemp] at hrun
    have hulnil : r.2.used_layouts = [] := List.isEmpty_iff.mp hemp
    have hcase : r.2.used_layouts = st.used_layouts ∧
        r.2.used_story_types = st.used_story_types := by
      rcases hinner with h | h
      · exact h
      · rw [h.1] at hulnil
        simp at hulnil
    have hstnil : st.used_layouts = [] := by rw [← hcase.1, hulnil]
    have hstorynil : st.used_story_types = [] := by
      have := hlen
      rw [hstnil] at this
      exact List.length_eq_zero.mp this.symm
    have hst' : st' = { r.2 with
        used_layouts := r.2.used_layouts ++ [r.1],
        used_story_types := r.2.used_story_types ++
          [(lookupLayout layouts r.1).map (fun l => l.semantic_story_type)] } := by
      injection hrun with h
      injection h with h1 h2
      exact h2.symm
    rw [hst']
    dsimp only
    rw [hcase.1, hcase.2, hstnil, hstorynil]
    refine ⟨by simp, by simp, by simp, ⟨[r.1], by simp, ?_⟩,
      ⟨[(lookupLayout layouts r.1).map (fun l => l.semantic_story_type)], by simp, ?_⟩⟩
    · exact List.suffix_refl _
    · exact List.suffix_refl _
  · rw [if_neg hemp] at hrun
    have happly : ∀ fi : Nat, st' = appendAndTruncate layouts r.2 fi →
        st'.used_layouts.length ≤ 50 ∧ st'.used_story_types.length ≤ 50 ∧
        st'.used_layouts.length = st'.used_story_types.length ∧
        (∃ l₁, l₁.length ≤ 2 ∧ st'.used_layouts <:+ st.used_layouts ++ l₁) ∧
        (∃ l₂, l₂.length ≤ 2 ∧ st'.used_story_types <:+ st.used_story_types ++ l₂) := by
      intro fi hst'
      have hspec := appendAndTruncate_spec layouts r.2 fi
      have hlens : r.2.used_layouts.length = r.2.used_story_types.length := by
        rcases hinner with h | h
        · rw [h.1, h.2, hlen]
        · rcases h.2 with ⟨s, hs⟩
          rw [h.1, hs]
          simp [hlen]
      refine ⟨?_, ?_, ?_, ?_, ?_⟩
      · rw [hst', hspec.1]
        omega
      · rw [hst', hspec.2.1]
        omega
      · rw [hst', hspec.1, hspec.2.1, hlens]
      · rcases hinner with h | h
        · refine ⟨[fi], by simp, ?_⟩
          have := hspec.2.2.1
          rw [← hst', h.1] at this
          exact this
        · refine ⟨[r.1, fi], by simp, ?_⟩
          have := hspec.2.2.1
          rw [← hst', h.1] at this
          simpa using this
      · rcases hinner with h | h
        · refine ⟨[(lookupLayout layouts fi).map (fun l => l.semantic_story_type)],
            by simp, ?_⟩
          have := hspec.2.2.2
          rw [← hst', h.2] at this
          exact this
        · rcases h.2 with ⟨s, hs⟩
          refine ⟨[s, (lookupLayout layouts fi).map (fun l => l.semantic_story_type)],
            by simp, ?_⟩
          have := hspec.2.2.2
          rw [← hst', hs] at this
          simpa using this
    by_cases havoid : (2 ≤ r.2.used_story_types.length &&
        (match takeLast 2 r.2.used_story_types with
         | [a, b] => b = a && a = ((lookupLayout layouts r.1).map
             (fun l => l.semantic_story_type))
         | _ => false)) = true
    · rw [if_pos havoid] at hrun
      rcases hlook : lookupLayout layouts r.1 with - | chosen
      · rw [hlook] at hrun
        simp at hrun
      · rw [hlook] at hrun
        simp only [Option.some.injEq] at hrun
        have hpair := hrun
        injection hpair with h1 h2
        exact happly _ h2.symm
    · rw [if_neg havoid] at hrun
      injection hrun with h
      injection h with h1 h2
      exact happly _ h2.symm

/-- Witness for `history_bounded_by_50`: the first call of the concrete run. -/
theorem history_bounded_by_50_witness :
    (initialMatcherState.used_layouts.length =
        initialMatcherState.used_story_types.length ∧
     selectLayoutForSlide c1Layouts c1Slide 0 10 initialMatcherState =
        some (0, c1StateAfter1)) ∧
    (c1StateAfter1.used_layouts.length ≤ 50 ∧
     c1StateAfter1.used_story_types.length ≤ 50 ∧
     c1StateAfter1.used_layouts.length = c1StateAfter1.used_story_types.length ∧
     (∃ l₁, l₁.length ≤ 2 ∧
        c1StateAfter1.used_layouts <:+ initialMatcherState.used_layouts ++ l₁) ∧
     (∃ l₂, l₂.length ≤ 2 ∧
        c1StateAfter1.used_story_types <:+ initialMatcherState.used_story_types ++ l₂)) :=
  ⟨⟨by decide, by decide⟩,
   history_bounded_by_50 c1Layouts c1Slide 0 10 initialMatcherState 0 c1StateAfter1
     (by decide) (by decide)⟩

theorem firstKeys_snoc (l : List PlaceholderInfo) (b : PlaceholderInfo) :
    firstKeys (l ++ [b]) =
      if rowKey b ∈ firstKeys l then firstKeys l else firstKeys l ++ [rowKey b] := by
  unfold firstKeys
  rw [List.foldl_append]
  rfl

theorem mem_firstKeys (k : Rat) :
    ∀ l : List PlaceholderInfo, k ∈ firstKeys l ↔ ∃ b ∈ l, rowKey b = k := by
  intro l
  induction l using List.reverseRecOn with
  | nil => simp [firstKeys]
  | append_singleton l b ih =>
      rw [firstKeys_snoc]
      by_cases hmem : rowKey b ∈ firstKeys l
      · rw [if_pos hmem, ih]
        constructor
        · rintro ⟨b', hb', rfl⟩
          exact ⟨b', List.mem_append_left _ hb', rfl⟩
        · rintro ⟨b', hb', rfl⟩
          rcases List.mem_append.mp hb' with h | h
          · exact ⟨b', h, rfl⟩
          · rcases List.mem_singleton.mp h with rfl
            exact ih.mp hmem
      · rw [if_neg hmem]
        rw [List.mem_append, ih, List.mem_singleton]
        constructor
        · rintro (⟨b', hb', rfl⟩ | rfl)
          · exact ⟨b', List.mem_append_left _ hb', rfl⟩
          · exact ⟨b, List.mem_append_right _ (List.mem_singleton_self b), rfl⟩
        · rintro ⟨b', hb', rfl⟩
          rcases List.mem_append.mp hb' with h | h
          · exact Or.inl ⟨b', h, rfl⟩
          · rcases List.mem_singleton.mp h with rfl
            exact Or.inr rfl

theorem firstKeys_nodup : ∀ l : List PlaceholderInfo, (firstKeys l).Nodup := by
  intro l
  induction l using List.reverseRecOn with
  | nil => simp [firstKeys]
  | append_singleton l b ih =>
      rw [firstKeys_snoc]
      by_cases hmem : rowKey b ∈ firstKeys l
      · rw [if_pos hmem]
        exact ih
      · rw [if_neg hmem, ← List.concat_eq_append]
        exact List.Nodup.concat hmem ih

theorem insertRow_map (f : Rat → List PlaceholderInfo) (k : Rat) (b : PlaceholderInfo) :
    ∀ ks : List Rat, ks.Nodup →
      insertRow (ks.map (fun k' => (k', f k'))) k b =
        (if k ∈ ks then ks.map (fun k' => (k', if k' = k then f k' ++ [b] else f k'))
         else ks.map (fun k' => (k', f k')) ++ [(k, [b])])
  | [], _ => by simp [insertRow]
  | k0 :: ks, hnodup => by
      rcases List.nodup_cons.mp hnodup with ⟨hk0, hks⟩
      by_cases h0 : k0 = k
      · subst h0
        rw [List.map_cons, insertRow, if_pos rfl, if_pos (List.mem_cons_self _ _)]
        rw [List.map_cons, if_pos rfl]
        congr 1
        refine (List.map_congr_left ?_).symm
        intro k' hk'
        rw [if_neg]
        intro hcontra
        exact hk0 (hcontra ▸ hk')
      · rw [List.map_cons, insertRow, if_neg h0, insertRow_map f k b ks hks]
        by_cases hmem : k ∈ ks
        · rw [if_pos hmem, if_pos (List.mem_cons_of_mem _ hmem), List.map_cons,
            if_neg h0]
        · have hm2 : k ∉ k0 :: ks := by
            intro hcon
            rcases List.mem_cons.mp hcon with hcon | hcon
            · exact h0 hcon.symm
            · exact hmem hcon
          rw [if_neg hmem, if_neg hm2]
          rfl

theorem groupByRow_eq_specGroup : ∀ l : List PlaceholderInfo, groupByRow l = specGroup l := by
  intro l
  induction l using List.reverseRecOn with
  | nil => rfl
  | append_singleton l b ih =>
      have hstep : groupByRow (l ++ [b]) = insertRow (groupByRow l) (rowKey b) b := by
        unfold groupByRow
        rw [List.foldl_append]
        rfl
      rw [hstep, ih]
      unfold specGroup
      rw [insertRow_map _ _ _ _ (firstKeys_nodup l), firstKeys_snoc]
      by_cases hmem : rowKey b ∈ firstKeys l
      · rw [if_pos hmem, if_pos hmem]
        refine List.map_congr_left ?_
        intro k' hk'
        rw [List.filter_append]
        by_cases hkb : k' = rowKey b
        · subst hkb
          rw [if_pos rfl]
          simp
        · rw [if_neg hkb]
          have : (List.filter (fun b' => decide (rowKey b' = k')) [b]) = [] := by
            simp only [List.filter_cons, List.filter_nil]
            rw [decide_eq_false (fun h => hkb (h.symm)), if_neg (by simp)]
          rw [this, List.append_nil]
      · rw [if_neg hmem, if_neg hmem, List.map_append]
        congr 1
        · refine List.map_congr_left ?_
          intro k' hk'
          rw [List.filter_append]
          have hkb : k' ≠ rowKey b := fun h => hmem (h ▸ hk')
          have : (List.filter (fun b' => decide (rowKey b' = k')) [b]) = [] := by
            simp only [List.filter_cons, List.filter_nil]
            rw [decide_eq_false (fun h => hkb (h.symm)), if_neg (by simp)]
          rw [this, List.append_nil]
        · rw [List.map_singleton]
          have hnil : l.filter (fun b' => decide (rowKey b' = rowKey b)) = [] := by
            rw [List.filter_eq_nil_iff]
            intro x hx
            simp only [decide_eq_true_eq]
            intro hcontra
            exact hmem ((mem_firstKeys (rowKey b) l).mpr ⟨x, hx, hcontra⟩)
          rw [List.filter_append, hnil, List.nil_append]
          simp

theorem foldl_qMax_le_iff (c : Rat) :
    ∀ (xs : List Rat) (a : Rat), xs.foldl qMax a ≤ c ↔ a ≤ c ∧ ∀ y ∈ xs, y ≤ c
  | [], a => by simp
  | y :: ys, a => by
      rw [List.foldl_cons, foldl_qMax_le_iff c ys (qMax a y), qMax_eq]
      constructor
      · rintro ⟨hmax, hall⟩
        rcases max_le_iff.mp hmax with ⟨h1, h2⟩
        refine ⟨h1, fun z hz => ?_⟩
        rcases List.mem_cons.mp hz with rfl | hz'
        · exact h2
        · exact hall z hz'
      · rintro ⟨ha, hall⟩
        exact ⟨max_le_iff.mpr ⟨ha, hall y (List.mem_cons_self _ _)⟩,
          fun z hz => hall z (List.mem_cons_of_mem _ hz)⟩

theorem listMax_le_iff (l : List Rat) (c : Rat) (h : l ≠ []) :
    listMax l ≤ c ↔ ∀ y ∈ l, y ≤ c := by
  cases l with
  | nil => exact absurd rfl h
  | cons x xs =>
      unfold listMax
      rw [foldl_qMax_le_iff]
      constructor
      · rintro ⟨hx, hall⟩ z hz
        rcases List.mem_cons.mp hz with rfl | hz'
        · exact hx
        · exact hall z hz'
      · intro hall
        exact ⟨hall x (List.mem_cons_self _ _), fun z hz => hall z (List.mem_cons_of_mem _ hz)⟩

theorem rows_length_ge2_iff (s : List PlaceholderInfo) :
    2 ≤ (groupByRow s).length ↔ ∃ b1 ∈ s, ∃ b2 ∈ s, rowKey b1 ≠ rowKey b2 := by
  rw [groupByRow_eq_specGroup]
  unfold specGroup
  rw [List.length_map]
  constructor
  · intro h2
    rcases hks : firstKeys s with - | ⟨k1, rest⟩
    · rw [hks] at h2
      simp at h2
    · rcases rest with - | ⟨k2, rest'⟩
      · rw [hks] at h2
        simp at h2
      · have hk1 : k1 ∈ firstKeys s := by rw [hks]; exact List.mem_cons_self _ _
        have hk2 : k2 ∈ firstKeys s := by
          rw [hks]
          exact List.mem_cons_of_mem _ (List.mem_cons_self _ _)
        have hne : k1 ≠ k2 := by
          have hnd := firstKeys_nodup s
          rw [hks] at hnd
          rcases List.nodup_cons.mp hnd with ⟨hnotin, -⟩
          intro hcontra
          exact hnotin (hcontra ▸ List.mem_cons_self _ _)
        obtain ⟨b1, hb1, hbk1⟩ := (mem_firstKeys k1 s).mp hk1
        obtain ⟨b2, hb2, hbk2⟩ := (mem_firstKeys k2 s).mp hk2
        exact ⟨b1, hb1, b2, hb2, by rw [hbk1, hbk2]; exact hne⟩
  · rintro ⟨b1, hb1, b2, hb2, hne⟩
    have h1 : rowKey b1 ∈ firstKeys s := (mem_firstKeys _ _).mpr ⟨b1, hb1, rfl⟩
    have h2 : rowKey b2 ∈ firstKeys s := (mem_firstKeys _ _).mpr ⟨b2, hb2, rfl⟩
    rcases hks : firstKeys s with - | ⟨k1, rest⟩
    · rw [hks] at h1
      simp at h1
    · rcases rest with - | ⟨k2, rest'⟩
      · rw [hks] at h1 h2
        have e1 := List.mem_singleton.mp h1
        have e2 := List.mem_singleton.mp h2
        exact absurd (e1.trans e2.symm) hne
      · simp

theorem buckets_ge2_iff (s : List PlaceholderInfo) :
    ((groupByRow s).any (fun kv => kv.2.length < 2) = false) ↔
      ∀ b ∈ s, 2 ≤ (s.filter (fun c => decide (rowKey c = rowKey b))).length := by
  rw [groupByRow_eq_specGroup]
  unfold specGroup
  rw [List.any_eq_false]
  constructor
  · intro hall b hb
    have hk : rowKey b ∈ firstKeys s := (mem_firstKeys _ _).mpr ⟨b, hb, rfl⟩
    have := hall (rowKey b, s.filter (fun c => decide (rowKey c = rowKey b)))
      (List.mem_map.mpr ⟨rowKey b, hk, rfl⟩)
    simpa using this
  · intro hall kv hkv
    rcases List.mem_map.mp hkv with ⟨k, hk, rfl⟩
    obtain ⟨b, hb, hbk⟩ := (mem_firstKeys k s).mp hk
    have := hall b hb
    rw [← hbk]
    simpa using this

set_option maxHeartbeats 2000000 in
/-- C6: KPI-grid detection succeeds exactly under the conditions of the claim
(at least 4 small boxes, at least 2 rounded-top rows of 2 or more boxes each,
area deviation within 30% of the mean), and on Scenario B — five area-2 boxes in two rows — it
reports a 2-row grid and the story type of the layout becomes
`metrics_dashboard`. -/
theorem kpi_grid_detection_characterised :
    (∀ phs : List PlaceholderInfo,
        ((detectKpiGrid phs).isSome = true ↔ kpiGridSpec phs)) ∧
    (detectKpiGrid scenarioBBoxes).map (fun g => g.rows) = some 2 ∧
    inferSemanticStoryType (groupPlaceholdersSemantically [] scenarioBBoxes)
      scenarioBBoxes (detectKpiGrid scenarioBBoxes) = some "metrics_dashboard" := by
  refine ⟨?_, by decide, by decide⟩
  intro phs
  unfold detectKpiGrid kpiGridSpec
  dsimp only
  set smalls := phs.filter (fun ph => ph.is_small_box) with hsm
  set areas := smalls.map (fun b => b.area) with hareas
  set avg := qDiv (qSum areas) ((areas.length : Nat) : Rat) with havgdef
  set devs := areas.map (fun a => qAbs (qSub a avg)) with hdevs
  by_cases h4 : smalls.length < 4
  · rw [if_pos h4]
    exact iff_of_false (by simp) (fun hspec => absurd hspec.1 (by omega))
  · rw [if_neg h4]
    by_cases hrows : ((groupByRow smalls).length < 2 ∨
        ((groupByRow smalls).any (fun kv => kv.2.length < 2)) = true)
    · rw [if_pos hrows]
      refine iff_of_false (by simp) (fun hspec => ?_)
      rcases hrows with hlt | hany
      · exact absurd ((rows_length_ge2_iff smalls).mpr hspec.2.1) (by omega)
      · have := (buckets_ge2_iff smalls).mpr hspec.2.2.1
        rw [this] at hany
        exact Bool.false_ne_true hany
    · rw [if_neg hrows]
      have hany : ((groupByRow smalls).any (fun kv => kv.2.length < 2)) = false := by
        rcases Bool.eq_false_or_eq_true ((groupByRow smalls).any (fun kv => kv.2.length < 2))
          with h | h
        · exact absurd (Or.inr h) hrows
        · exact h
      have hsmne : smalls ≠ [] := by
        intro hcon
        rw [hcon] at h4
        simp at h4
      have hdevne : devs ≠ [] := by
        rw [hdevs, hareas]
        simpa using hsmne
      have havg : avg = (smalls.map (fun b => b.area)).sum / ((smalls.length : Nat) : Rat) := by
        rw [havgdef, qDiv_eq, qSum_eq, hareas, List.length_map]
      have hc : qMul avg (mkRat 3 10) =
          (3 : Rat) / 10 *
            ((smalls.map (fun b => b.area)).sum / ((smalls.length : Nat) : Rat)) := by
        rw [qMul_eq, havg, mul_comm]
        congr 1
        rw [Rat.mkRat_eq_div]
        norm_num
      have hdevmem : ∀ b ∈ smalls, qAbs (qSub b.area avg) ∈ devs := by
        intro b hb
        rw [hdevs]
        exact List.mem_map_of_mem _ (by rw [hareas]; exact List.mem_map_of_mem _ hb)
      by_cases hdev : qMul avg (mkRat 3 10) < listMax devs
      · rw [if_pos hdev]
        refine iff_of_false (by simp) (fun hspec => ?_)
        have hall := hspec.2.2.2
        have hle : listMax devs ≤ qMul avg (mkRat 3 10) := by
          rw [listMax_le_iff _ _ hdevne, hdevs]
          intro y hy
          rcases List.mem_map.mp hy with ⟨a, ha, rfl⟩
          rw [hareas] at ha
          rcases List.mem_map.mp ha with ⟨b, hb, rfl⟩
          rw [qAbs_eq, qSub_eq, hc, havg]
          exact hall b hb
        exact absurd hdev (not_lt.mpr hle)
      · rw [if_neg hdev]
        refine iff_of_true (by simp) ?_
        refine ⟨by omega, (rows_length_ge2_iff smalls).mp (by omega),
          (buckets_ge2_iff smalls).mp hany, ?_⟩
        intro b hb
        have hle := not_lt.mp hdev
        rw [listMax_le_iff _ _ hdevne] at hle
        have := hle (qAbs (qSub b.area avg)) (hdevmem b hb)
        rw [qAbs_eq, qSub_eq, hc, havg] at this
        exact this

/-- Witness for `mapper_totality_and_fallback`: a one-bullet payload against
the single-placeholder layout maps successfully. -/
theorem mapper_totality_and_fallback_witness :
    (layoutOneContent.content_placeholders ≠ [] ∧ bulletsDictHomogeneous c1Slide) ∧
    (mapContentToPlaceholders c1Slide layoutOneContent).isSome = true :=
  ⟨⟨by decide, trivial⟩,
   mapper_totality_and_fallback.1 layoutOneContent c1Slide (by decide) trivial⟩

/-- Witness for `kpi_grid_detection_characterised`: the Scenario B boxes
satisfy the spec-side grid condition via the equivalence. -/
theorem kpi_grid_detection_characterised_witness :
    kpiGridSpec scenarioBBoxes :=
  (kpi_grid_detection_characterised.1 scenarioBBoxes).mp (by decide)

end SlideDeck

